import Mathlib

/-!
# Verification of the RAN-copilot normalization + fusion core

Shallow embedding of the `engine` package (attach, backhaul, KPI, alarm
analyzers and the multi-signal RCA fusion engine) together with proofs of
the behavioural properties stated in the specification.

Python floats are modelled as exact rationals (`ℚ`); decimal literals such
as `0.4` denote the exact rational the source writes.  Python strings are
modelled as Lean `String`s; `str.lower`/`str.strip` are modelled on the
ASCII range, which covers every literal the analyzers compare against.
The legacy KPI-only classifier (`engine.rca`, imported by the fusion
engine but outside the analyzed core) is treated as an explicit
collaborator: the fusion entry point is parameterized over it.
-/

namespace RanCopilot

/-! ## String helpers shared by the analyzers -/

/-- Char-list matcher: does `needle` occur at the head of `hay`?
Models the inner step of Python's `x in text` substring test. -/
def listMatchAt : List Char → List Char → Bool
  | [], _ => true
  | _ :: _, [] => false
  | a :: as, b :: bs => a == b && listMatchAt as bs

/-- Does `needle` occur anywhere in `hay` (as a contiguous run)? -/
def listHasSub (needle : List Char) : List Char → Bool
  | [] => listMatchAt needle []
  | hay@(_ :: t) => listMatchAt needle hay || listHasSub needle t

/-- Python's `needle in hay` substring test on strings. -/
def strHasSub (hay needle : String) : Bool :=
  listHasSub needle.toList hay.toList

/-- Python `str.strip()` on a char list: drop leading and trailing
whitespace. -/
def pyStripChars (l : List Char) : List Char :=
  ((l.dropWhile Char.isWhitespace).reverse.dropWhile Char.isWhitespace).reverse

/-- Python `str.strip()`. -/
def pyStrip (s : String) : String :=
  String.mk (pyStripChars s.toList)

/-- Python `str.lower()` on one char (ASCII range, which covers every
literal the analyzers compare against). -/
def pyCharLower : Char → Char
  | 'A' => 'a' | 'B' => 'b' | 'C' => 'c' | 'D' => 'd' | 'E' => 'e'
  | 'F' => 'f' | 'G' => 'g' | 'H' => 'h' | 'I' => 'i' | 'J' => 'j'
  | 'K' => 'k' | 'L' => 'l' | 'M' => 'm' | 'N' => 'n' | 'O' => 'o'
  | 'P' => 'p' | 'Q' => 'q' | 'R' => 'r' | 'S' => 's' | 'T' => 't'
  | 'U' => 'u' | 'V' => 'v' | 'W' => 'w' | 'X' => 'x' | 'Y' => 'y'
  | 'Z' => 'z'
  | c => c

/-- Python `str.lower()`. -/
def pyLower (s : String) : String :=
  String.mk (s.toList.map pyCharLower)

theorem isWhitespace_pyCharLower (c : Char) :
    (pyCharLower c).isWhitespace = c.isWhitespace := by
  unfold pyCharLower
  split <;> rfl

theorem pyStripChars_eq_nil_iff {l : List Char} :
    pyStripChars l = [] ↔ ∀ c ∈ l, c.isWhitespace := by
  unfold pyStripChars
  rw [List.reverse_eq_nil_iff, List.dropWhile_eq_nil_iff]
  constructor
  · intro h c hc
    by_cases hw : c.isWhitespace
    · exact hw
    · -- a non-whitespace char would survive the first dropWhile
      have hmem : c ∈ l.dropWhile Char.isWhitespace := by
        rcases List.append_of_mem hc with ⟨s, t, rfl⟩
        clear hc h
        induction s with
        | nil => simp [List.dropWhile, hw]
        | cons a s ih =>
          simp only [List.cons_append, List.dropWhile]
          by_cases ha : Char.isWhitespace a
          · simpa [ha] using ih
          · simp [ha]
      exact absurd (h c (List.mem_reverse.mpr hmem)) hw
  · intro h c hc
    exact h c ((List.dropWhile_sublist _).subset (List.mem_reverse.mp hc))

/-! ## Attach analyzer (`engine/attach_analyzer.py`) -/

/-- Canonical attach record (`AttachRecord` dataclass). -/
structure AttachRecord where
  imsi : String
  apn : String
  tac : String
  attach_reject_cause : String
  erab_setup_cause : String
  failure_category : String
  deriving DecidableEq, Repr

/-- `classify_failure`: keyword-driven categorization of the concatenated
attach-reject and ERAB-setup cause text. -/
def classify_failure (attach_cause erab_cause : String) : String :=
  let text := pyLower (attach_cause ++ " " ++ erab_cause)
  if pyStrip text = "" then "SUCCESS"
  else if ["apn", "qci", "pdn", "service not subscribed"].any
      (fun x => strHasSub text x) then "APN_QCI"
  else if ["tac", "tracking area", "roaming not allowed"].any
      (fun x => strHasSub text x) then "TAC"
  else if ["radio", "rf", "coverage", "signal", "sinr"].any
      (fun x => strHasSub text x) then "RF"
  else if ["congestion", "resource unavailable", "no resource"].any
      (fun x => strHasSub text x) then "Congestion"
  else "Other"

/-- The fixed six-element category set of the data model. -/
def attachCategories : List String :=
  ["APN_QCI", "TAC", "RF", "Congestion", "Other", "SUCCESS"]

/-- Spec-side reformulation of the classifier's keyword phase: the ordered
keyword groups of §4.2, consulted in priority order, first match wins. -/
def keywordGroups : List (String × List String) :=
  [("APN_QCI", ["apn", "qci", "pdn", "service not subscribed"]),
   ("TAC", ["tac", "tracking area", "roaming not allowed"]),
   ("RF", ["radio", "rf", "coverage", "signal", "sinr"]),
   ("Congestion", ["congestion", "resource unavailable", "no resource"])]

/-- Category of the first keyword group matching `text`, `"Other"` when
none matches. -/
def firstMatchCategory (text : String) : String :=
  match keywordGroups.find? (fun g => g.2.any (fun x => strHasSub text x)) with
  | some g => g.1
  | none => "Other"

theorem listMatchAt_subset {n h : List Char} (hm : listMatchAt n h = true) :
    ∀ c ∈ n, c ∈ h := by
  induction n generalizing h with
  | nil => simp
  | cons a as ih =>
    cases h with
    | nil => simp [listMatchAt] at hm
    | cons b bs =>
      simp only [listMatchAt, Bool.and_eq_true, beq_iff_eq] at hm
      intro c hc
      rcases List.mem_cons.mp hc with rfl | hc
      · simp [hm.1]
      · exact List.mem_cons_of_mem _ (ih hm.2 c hc)

theorem listHasSub_subset {n h : List Char} (hs : listHasSub n h = true) :
    ∀ c ∈ n, c ∈ h := by
  induction h with
  | nil =>
    unfold listHasSub at hs
    cases n with
    | nil => simp
    | cons a as => simp [listMatchAt] at hs
  | cons b bs ih =>
    unfold listHasSub at hs
    rcases Bool.or_eq_true_iff.mp hs with hm | ht
    · exact listMatchAt_subset hm
    · exact fun c hc => List.mem_cons_of_mem _ (ih ht c hc)

theorem pyStrip_eq_empty_iff {s : String} :
    pyStrip s = "" ↔ ∀ c ∈ s.toList, c.isWhitespace := by
  constructor
  · intro h
    have : pyStripChars s.toList = [] := by
      have := congrArg String.data h
      simpa [pyStrip] using this
    exact pyStripChars_eq_nil_iff.mp this
  · intro h
    have h2 : pyStripChars s.toList = [] := pyStripChars_eq_nil_iff.mpr h
    show String.mk (pyStripChars s.toList) = ""
    rw [h2]

theorem pyLower_toList (s : String) :
    (pyLower s).toList = s.toList.map pyCharLower := rfl

theorem pyStrip_pyLower_eq_empty_iff {s : String} :
    pyStrip (pyLower s) = "" ↔ ∀ c ∈ s.toList, c.isWhitespace := by
  rw [pyStrip_eq_empty_iff]
  rw [pyLower_toList]
  constructor
  · intro h c hc
    have := h (pyCharLower c) (List.mem_map_of_mem _ hc)
    rwa [isWhitespace_pyCharLower] at this
  · intro h c hc
    rcases List.mem_map.mp hc with ⟨d, hd, rfl⟩
    rw [isWhitespace_pyCharLower]
    exact h d hd

/-- The classifier is total into the six fixed categories
(shared by the attach-parser invariant). -/
theorem classify_failure_mem (a e : String) :
    classify_failure a e ∈ attachCategories := by
  unfold classify_failure
  dsimp only
  split_ifs <;> simp [attachCategories]

/-- Parse-level normalization of a column name:
`name.strip().lower().replace(" ", "").replace("_", "")`. -/
def normCol (s : String) : String :=
  String.mk (((pyStrip s).toList.map pyCharLower).filter
    (fun c => !(c == ' ' || c == '_')))

/-- Overwrite-or-append of a key in an association list; models insertion
into a Python dict comprehension (later duplicate keys win). -/
def setKey (m : List (String × String)) (k v : String) :
    List (String × String) :=
  match m with
  | [] => [(k, v)]
  | (k', v') :: t => if k' = k then (k, v) :: t else (k', v') :: setKey t k v

/-- `{norm(k): v for k, v in row.items()}`. -/
def colsOf (row : List (String × String)) : List (String × String) :=
  row.foldl (fun m kv => setKey m (normCol kv.1) kv.2) []

/-- Python `dict.get(key, default)`. -/
def lookupD (m : List (String × String)) (k d : String) : String :=
  match m.find? (fun kv => kv.1 == k) with
  | some kv => kv.2
  | none => d

/-- Build one `AttachRecord` from one CSV row (the body of the row loop of
`parse_attach_csv`). -/
def recordOfRow (row : List (String × String)) : AttachRecord :=
  let cols := colsOf row
  let imsi := pyStrip (lookupD cols "imsi" "")
  let apn := pyStrip (lookupD cols "apn" "")
  let tac := pyStrip (lookupD cols "tac" "")
  let attach_cause :=
    pyStrip (lookupD cols "attachrejectcause" (lookupD cols "attach_cause" ""))
  let erab_cause :=
    pyStrip (lookupD cols "erabsetupcause" (lookupD cols "erab_cause" ""))
  let failure_cat := pyStrip (lookupD cols "failurecategory" "")
  let failure_cat :=
    if failure_cat = "" then classify_failure attach_cause erab_cause
    else failure_cat
  { imsi := if imsi = "" then "UNKNOWN" else imsi
    apn := if apn = "" then "UNKNOWN" else apn
    tac := if tac = "" then "UNKNOWN" else tac
    attach_reject_cause := attach_cause
    erab_setup_cause := erab_cause
    failure_category := failure_cat }

/-- `parse_attach_csv` after CSV tokenization: the `csv.DictReader` row
decoding is standard-library behaviour, so rows enter the model as
key/value association lists; empty rows are skipped as in the source. -/
def parse_attach_rows (rows : List (List (String × String))) :
    List AttachRecord :=
  (rows.filter (fun row => decide (row ≠ []))).map recordOfRow

/-- C5: `classify_failure` is total into the six fixed categories; it
returns `SUCCESS` exactly when the concatenated cause text is
whitespace-only; on non-blank text it agrees with the first matching
keyword group in priority order APN_QCI → TAC → RF → Congestion
(`Other` when none matches); and text containing both an `apn` and an
`rf` token classifies as `APN_QCI`. -/
theorem classify_failure_spec (a e : String) :
    classify_failure a e ∈ attachCategories ∧
    (classify_failure a e = "SUCCESS" ↔
      ∀ c ∈ (a ++ " " ++ e).toList, c.isWhitespace) ∧
    (¬ (∀ c ∈ (a ++ " " ++ e).toList, c.isWhitespace) →
      classify_failure a e = firstMatchCategory (pyLower (a ++ " " ++ e))) ∧
    (strHasSub (pyLower (a ++ " " ++ e)) "apn" = true →
      strHasSub (pyLower (a ++ " " ++ e)) "rf" = true →
      classify_failure a e = "APN_QCI") := by
  refine ⟨classify_failure_mem a e, ?_, ?_, ?_⟩
  · by_cases hws : pyStrip (pyLower (a ++ " " ++ e)) = ""
    · constructor
      · intro _
        exact pyStrip_pyLower_eq_empty_iff.mp hws
      · intro _
        unfold classify_failure
        dsimp only
        rw [if_pos hws]
    · constructor
      · intro hcl
        exfalso
        revert hcl
        unfold classify_failure
        dsimp only
        rw [if_neg hws]
        split_ifs <;> decide
      · intro h
        exact absurd (pyStrip_pyLower_eq_empty_iff.mpr h) hws
  · intro hne
    have hws : pyStrip (pyLower (a ++ " " ++ e)) ≠ "" :=
      fun h => hne (pyStrip_pyLower_eq_empty_iff.mp h)
    by_cases h1 : (["apn", "qci", "pdn", "service not subscribed"].any
        fun x => strHasSub (pyLower (a ++ " " ++ e)) x) = true <;>
    by_cases h2 : (["tac", "tracking area", "roaming not allowed"].any
        fun x => strHasSub (pyLower (a ++ " " ++ e)) x) = true <;>
    by_cases h3 : (["radio", "rf", "coverage", "signal", "sinr"].any
        fun x => strHasSub (pyLower (a ++ " " ++ e)) x) = true <;>
    by_cases h4 : (["congestion", "resource unavailable", "no resource"].any
        fun x => strHasSub (pyLower (a ++ " " ++ e)) x) = true <;>
    simp [classify_failure, firstMatchCategory, keywordGroups, List.find?,
      hws, h1, h2, h3, h4]
  · intro hapn hrf
    have ha : 'a' ∈ (pyLower (a ++ " " ++ e)).toList := by
      have : ('a' : Char) ∈ ("apn" : String).toList := by decide
      exact listHasSub_subset hapn 'a' this
    have hws : pyStrip (pyLower (a ++ " " ++ e)) ≠ "" := by
      intro h
      have := pyStrip_eq_empty_iff.mp h 'a' ha
      simp at this
    have hany : (["apn", "qci", "pdn", "service not subscribed"].any
        fun x => strHasSub (pyLower (a ++ " " ++ e)) x) = true := by
      simp only [List.any_cons, Bool.or_eq_true]
      exact Or.inl hapn
    unfold classify_failure
    dsimp only
    rw [if_neg hws, if_pos hany]

/-- Witness for C5 at a concrete cause pair containing both an `apn` and
an `rf` token. -/
theorem classify_failure_spec_witness :
    classify_failure "APN not subscribed, weak rf" "" = "APN_QCI" :=
  (classify_failure_spec "APN not subscribed, weak rf" "").2.2.2
    (by decide) (by decide)

/-- C9 (amended): every record produced by the attach parser whose row
does not carry an explicit non-blank failure-category column has its
`failure_category` in the fixed six-element set; a row with an explicit
non-blank column passes that value through verbatim. -/
theorem parse_attach_rows_category (rows : List (List (String × String)))
    (rec : AttachRecord) (h : rec ∈ parse_attach_rows rows) :
    rec.failure_category ∈ attachCategories ∨
    ∃ row ∈ rows, rec = recordOfRow row ∧
      pyStrip (lookupD (colsOf row) "failurecategory" "") ≠ "" ∧
      rec.failure_category =
        pyStrip (lookupD (colsOf row) "failurecategory" "") := by
  rcases List.mem_map.mp h with ⟨row, hrow, rfl⟩
  have hrows : row ∈ rows := List.mem_of_mem_filter hrow
  by_cases hf : pyStrip (lookupD (colsOf row) "failurecategory" "") = ""
  · left
    have : (recordOfRow row).failure_category =
        classify_failure
          (pyStrip (lookupD (colsOf row) "attachrejectcause"
            (lookupD (colsOf row) "attach_cause" "")))
          (pyStrip (lookupD (colsOf row) "erabsetupcause"
            (lookupD (colsOf row) "erab_cause" ""))) := by
      simp [recordOfRow, hf]
    rw [this]
    exact classify_failure_mem _ _
  · right
    refine ⟨row, hrows, rfl, hf, ?_⟩
    simp [recordOfRow, hf]

/-- Witness for C9 at a one-row input with no explicit failure-category
column. -/
theorem parse_attach_rows_category_witness :
    (recordOfRow [("Attach Reject Cause", "radio link failure")]).failure_category
        ∈ attachCategories ∨
    ∃ row ∈ [[("Attach Reject Cause", "radio link failure")]],
      recordOfRow [("Attach Reject Cause", "radio link failure")] = recordOfRow row ∧
      pyStrip (lookupD (colsOf row) "failurecategory" "") ≠ "" ∧
      (recordOfRow [("Attach Reject Cause", "radio link failure")]).failure_category =
        pyStrip (lookupD (colsOf row) "failurecategory" "") :=
  parse_attach_rows_category
    [[("Attach Reject Cause", "radio link failure")]]
    (recordOfRow [("Attach Reject Cause", "radio link failure")])
    (by decide)

/-- Counterexample for C9 as stated: a row supplying an explicit
failure-category column keeps its verbatim value `"BOGUS"`, which is not
one of the six fixed categories. -/
theorem parse_attach_rows_category_cx :
    (parse_attach_rows [[("failure_category", "BOGUS")]]).map
        (fun r => r.failure_category) = ["BOGUS"] ∧
    "BOGUS" ∉ attachCategories := by
  constructor
  · decide
  · decide

/-! ## Backhaul analyzer (`engine/backhaul_analyzer.py`) -/

/-- Canonical backhaul sample (`BackhaulSample` dataclass). -/
structure BackhaulSample where
  timestamp : String
  modulation : ℚ
  rssi : ℚ
  latency_ms : ℚ
  jitter_ms : ℚ
  tx_errors : ℚ
  rx_errors : ℚ
  deriving DecidableEq, Repr

/-- Summary produced by `summarize_backhaul`. -/
structure BackhaulSummary where
  total_samples : Nat
  impairment_score : ℚ
  modulation_trend : List (String × ℚ)
  rssi_trend : List (String × ℚ)
  latency_jitter_trend : List (String × ℚ × ℚ)
  tx_errors : ℚ
  rx_errors : ℚ
  deriving Repr

/-- Heuristic flag: low-order modulation (`s.modulation < 4`). -/
def lowMod (s : BackhaulSample) : Bool := decide (s.modulation < 4)

/-- Heuristic flag: high latency (`s.latency_ms > 50`). -/
def highLatency (s : BackhaulSample) : Bool := decide (s.latency_ms > 50)

/-- Heuristic flag: high jitter (`s.jitter_ms > 20`). -/
def highJitter (s : BackhaulSample) : Bool := decide (s.jitter_ms > 20)

/-- `summarize_backhaul`: trend series, error totals and the weighted
impairment score clamped to at most 1. -/
def summarize_backhaul (samples : List BackhaulSample) : BackhaulSummary :=
  if samples = [] then
    { total_samples := 0
      impairment_score := 0
      modulation_trend := []
      rssi_trend := []
      latency_jitter_trend := []
      tx_errors := 0
      rx_errors := 0 }
  else
    let n : ℚ := samples.length
    let low_mod_count : ℚ := samples.countP lowMod
    let high_latency_count : ℚ := samples.countP highLatency
    let high_jitter_count : ℚ := samples.countP highJitter
    { total_samples := samples.length
      impairment_score :=
        min 1 ((low_mod_count / n) * 0.4 + (high_latency_count / n) * 0.3
          + (high_jitter_count / n) * 0.3)
      modulation_trend := samples.map (fun s => (s.timestamp, s.modulation))
      rssi_trend := samples.map (fun s => (s.timestamp, s.rssi))
      latency_jitter_trend :=
        samples.map (fun s => (s.timestamp, s.latency_ms, s.jitter_ms))
      tx_errors := (samples.map (fun s => s.tx_errors)).sum
      rx_errors := (samples.map (fun s => s.rx_errors)).sum }

/-- Fraction of samples with the low-modulation flag. -/
def lowModFrac (samples : List BackhaulSample) : ℚ :=
  (samples.countP lowMod : ℚ) / samples.length

/-- Fraction of samples with the high-latency flag. -/
def highLatencyFrac (samples : List BackhaulSample) : ℚ :=
  (samples.countP highLatency : ℚ) / samples.length

/-- Fraction of samples with the high-jitter flag. -/
def highJitterFrac (samples : List BackhaulSample) : ℚ :=
  (samples.countP highJitter : ℚ) / samples.length

/-- Fraction of samples satisfying the spec's combined impairment
disjunction (modulation < 4 or latency > 50 or jitter > 20). -/
def impairedFrac (samples : List BackhaulSample) : ℚ :=
  (samples.countP (fun s => lowMod s || highLatency s || highJitter s) : ℚ)
    / samples.length

theorem impairment_score_closed_form {samples : List BackhaulSample}
    (h : samples ≠ []) :
    (summarize_backhaul samples).impairment_score =
      min 1 (lowModFrac samples * 0.4 + highLatencyFrac samples * 0.3
        + highJitterFrac samples * 0.3) := by
  simp [summarize_backhaul, h, lowModFrac, highLatencyFrac, highJitterFrac]

theorem countP_frac_bounds {p : BackhaulSample → Bool}
    {samples : List BackhaulSample} (h : samples ≠ []) :
    0 ≤ (samples.countP p : ℚ) / samples.length ∧
      (samples.countP p : ℚ) / samples.length ≤ 1 := by
  have hlen : 0 < (samples.length : ℚ) := by
    have := List.length_pos.mpr h
    exact_mod_cast this
  constructor
  · positivity
  · rw [div_le_one hlen]
    exact_mod_cast List.countP_le_length p

/-- C4 (amended): for nonempty sample lists the impairment score lies in
[0, 1], and it is monotonically non-decreasing in the three per-flag
fractions jointly: whenever each of the low-modulation, high-latency and
high-jitter fractions of `s1` is at most that of `s2`, the score of `s1`
is at most the score of `s2`.  (It is not a function of the combined-flag
fraction alone; see the counterexample.) -/
theorem backhaul_impairment_bounds_mono (s1 s2 : List BackhaulSample)
    (h1 : s1 ≠ []) (h2 : s2 ≠ []) :
    (0 ≤ (summarize_backhaul s1).impairment_score ∧
      (summarize_backhaul s1).impairment_score ≤ 1) ∧
    (lowModFrac s1 ≤ lowModFrac s2 →
      highLatencyFrac s1 ≤ highLatencyFrac s2 →
      highJitterFrac s1 ≤ highJitterFrac s2 →
      (summarize_backhaul s1).impairment_score ≤
        (summarize_backhaul s2).impairment_score) := by
  have b1l := (countP_frac_bounds (p := lowMod) h1).1
  have b1h := (countP_frac_bounds (p := highLatency) h1).1
  have b1j := (countP_frac_bounds (p := highJitter) h1).1
  rw [impairment_score_closed_form h1]
  constructor
  · constructor
    · have : (0 : ℚ) ≤ lowModFrac s1 * 0.4 + highLatencyFrac s1 * 0.3
          + highJitterFrac s1 * 0.3 := by
        unfold lowModFrac highLatencyFrac highJitterFrac at *
        positivity
      exact le_min (by norm_num) this
    · exact min_le_left _ _
  · intro hm hl hj
    rw [impairment_score_closed_form h2]
    apply min_le_min le_rfl
    have c1 : lowModFrac s1 * 0.4 ≤ lowModFrac s2 * 0.4 := by
      apply mul_le_mul_of_nonneg_right hm
      norm_num
    have c2 : highLatencyFrac s1 * 0.3 ≤ highLatencyFrac s2 * 0.3 := by
      apply mul_le_mul_of_nonneg_right hl
      norm_num
    have c3 : highJitterFrac s1 * 0.3 ≤ highJitterFrac s2 * 0.3 := by
      apply mul_le_mul_of_nonneg_right hj
      norm_num
    linarith

/-- Witness for C4 at concrete sample lists (one clean sample versus one
sample with all three impairment flags raised). -/
theorem backhaul_impairment_bounds_mono_witness :
    (0 ≤ (summarize_backhaul [⟨"t", 6, 0, 10, 5, 0, 0⟩]).impairment_score ∧
      (summarize_backhaul [⟨"t", 6, 0, 10, 5, 0, 0⟩]).impairment_score ≤ 1) ∧
    ((summarize_backhaul [⟨"t", 6, 0, 10, 5, 0, 0⟩]).impairment_score ≤
      (summarize_backhaul [⟨"t", 2, 0, 60, 25, 0, 0⟩]).impairment_score) := by
  have h := backhaul_impairment_bounds_mono
    [⟨"t", 6, 0, 10, 5, 0, 0⟩] [⟨"t", 2, 0, 60, 25, 0, 0⟩]
    (by decide) (by decide)
  refine ⟨h.1, h.2 ?_ ?_ ?_⟩ <;>
    norm_num [lowModFrac, highLatencyFrac, highJitterFrac,
      List.countP_cons, lowMod, highLatency, highJitter]

/-- Counterexample for C4 as stated: between the two lists below the
combined-flag fraction strictly increases (1/2 to 1) while the impairment
score strictly decreases (1/2 to 2/5), so the score is not monotonically
non-decreasing in that fraction. -/
theorem backhaul_impairment_mono_cx :
    impairedFrac [⟨"t", 2, 0, 60, 25, 0, 0⟩, ⟨"t", 6, 0, 10, 5, 0, 0⟩] <
      impairedFrac [⟨"t", 2, 0, 10, 5, 0, 0⟩, ⟨"t", 2, 0, 10, 5, 0, 0⟩] ∧
    (summarize_backhaul
        [⟨"t", 2, 0, 10, 5, 0, 0⟩, ⟨"t", 2, 0, 10, 5, 0, 0⟩]).impairment_score <
      (summarize_backhaul
        [⟨"t", 2, 0, 60, 25, 0, 0⟩, ⟨"t", 6, 0, 10, 5, 0, 0⟩]).impairment_score := by
  constructor
  · norm_num [impairedFrac, List.countP_cons, lowMod, highLatency, highJitter]
  · rw [impairment_score_closed_form (by decide),
      impairment_score_closed_form (by decide)]
    norm_num [lowModFrac, highLatencyFrac, highJitterFrac, List.countP_cons,
      lowMod, highLatency, highJitter, min_def]

/-! ## KPI analyzer (`engine/kpi_analyzer.py`)

Raw KPI samples are caller-supplied dicts; the fields the analyzer reads
(`kpi`, `site`, `value`) enter the model as optional fields, `none`
standing for an absent key.  `stdev` (a square root, not representable in
`ℚ`) is consumed only by the out-of-scope legacy baseline classifier and
is left out of the evidence record. -/

/-- One raw KPI sample. -/
structure KpiEntry where
  kpi : Option String
  site : Option String
  value : Option ℚ
  deriving DecidableEq, Repr

/-- Per-metric statistics of the evidence map. -/
structure KpiStats where
  mean : ℚ
  vmin : ℚ
  vmax : ℚ
  count : Nat
  median : Option ℚ
  deriving DecidableEq, Repr

/-- One threshold-violation entry of the anomaly list. -/
structure Anomaly where
  kpi : String
  type : String
  value : ℚ
  threshold : ℚ
  severity : String
  deriving DecidableEq, Repr

/-- One entry of the fixed threshold table (each row carries a `min` or a
`max` bound and a unit). -/
structure KpiThreshold where
  tmin : Option ℚ
  tmax : Option ℚ
  unit : String
  deriving DecidableEq, Repr

/-- The fixed per-metric threshold table `THRESHOLDS`. -/
def THRESHOLDS : List (String × KpiThreshold) :=
  [("RRC_Setup_Success_Rate", ⟨some 95, none, "%"⟩),
   ("ERAB_Setup_Success_Rate", ⟨some 98, none, "%"⟩),
   ("PRB_Utilization_Avg", ⟨none, some 70, "%"⟩),
   ("PRB_Utilization_P95", ⟨none, some 85, "%"⟩),
   ("SINR_Avg", ⟨some 5, none, "dB"⟩),
   ("SINR_P10", ⟨some 0, none, "dB"⟩),
   ("BLER_P95", ⟨none, some 10, "%"⟩),
   ("Paging_Success_Rate", ⟨some 95, none, "%"⟩),
   ("S1_Setup_Failure_Rate", ⟨none, some 1, "%"⟩),
   ("Cell_Availability", ⟨some 99, none, "%"⟩)]

/-- `THRESHOLDS.get(kpi_name)`. -/
def thresholdFor (name : String) : Option KpiThreshold :=
  (THRESHOLDS.find? (fun kv => kv.1 == name)).map (fun kv => kv.2)

/-- Entries with both a metric name and a value (the others are skipped
by the grouping loop). -/
def validKpiEntries (kpi_data : List KpiEntry) : List (String × ℚ) :=
  kpi_data.filterMap (fun e =>
    match e.kpi, e.value with
    | some k, some v => some (k, v)
    | _, _ => none)

/-- First-occurrence deduplication with an accumulator of already-seen
keys; models the key order of a Python dict built by insertion. -/
def firstDedupAux (seen : List String) : List String → List String
  | [] => []
  | a :: l =>
    if a ∈ seen then firstDedupAux seen l
    else a :: firstDedupAux (a :: seen) l

/-- First-occurrence deduplication. -/
def firstDedup (l : List String) : List String := firstDedupAux [] l

/-- Metric names grouped by the loop, in first-occurrence order. -/
def kpiNames (kpi_data : List KpiEntry) : List String :=
  firstDedup ((validKpiEntries kpi_data).map (fun kv => kv.1))

/-- Values collected for one metric, in input order. -/
def valuesOf (kpi_data : List KpiEntry) (name : String) : List ℚ :=
  ((validKpiEntries kpi_data).filter (fun kv => kv.1 == name)).map
    (fun kv => kv.2)

/-- `statistics.mean`. -/
def ratMean (vs : List ℚ) : ℚ := vs.sum / vs.length

/-- `min(values)` (0 on an empty list; the loop never reaches that case). -/
def listMin : List ℚ → ℚ
  | [] => 0
  | a :: t => t.foldl min a

/-- `max(values)`. -/
def listMax : List ℚ → ℚ
  | [] => 0
  | a :: t => t.foldl max a

/-- Insertion step of an insertion sort on rationals. -/
def insRat (a : ℚ) : List ℚ → List ℚ
  | [] => [a]
  | b :: t => if a ≤ b then a :: b :: t else b :: insRat a t

/-- Sorted copy of a rational list. -/
def sortRat (vs : List ℚ) : List ℚ := vs.foldr insRat []

/-- `statistics.median`: middle element of the sorted list, or the mean
of the two middle elements for even length. -/
def ratMedian (vs : List ℚ) : ℚ :=
  let s := sortRat vs
  let n := s.length
  if n % 2 = 1 then s.getD (n / 2) 0
  else (s.getD (n / 2 - 1) 0 + s.getD (n / 2) 0) / 2

/-- Per-metric statistics record (median present only when more than one
sample exists, as in the source). -/
def statsFor (vs : List ℚ) : KpiStats :=
  { mean := ratMean vs
    vmin := listMin vs
    vmax := listMax vs
    count := vs.length
    median := if vs.length > 1 then some (ratMedian vs) else none }

/-- Threshold check for one metric: the `below_threshold` entry for a
violated `min` bound and/or the `above_threshold` entry for a violated
`max` bound, with the 80%/120% severity cutoffs. -/
def anomaliesFor (name : String) (vs : List ℚ) : List Anomaly :=
  match thresholdFor name with
  | none => []
  | some t =>
    (match t.tmin with
     | some m =>
       if ratMean vs < m then
         [{ kpi := name, type := "below_threshold", value := ratMean vs,
            threshold := m,
            severity := if ratMean vs < m * 0.8 then "high" else "medium" }]
       else []
     | none => []) ++
    (match t.tmax with
     | some m =>
       if ratMean vs > m then
         [{ kpi := name, type := "above_threshold", value := ratMean vs,
            threshold := m,
            severity := if ratMean vs > m * 1.2 then "high" else "medium" }]
       else []
     | none => [])

/-- Append one value under a metric key (inner dict of `kpi_by_site`). -/
def appendAt (m : List (String × List ℚ)) (k : String) (v : ℚ) :
    List (String × List ℚ) :=
  match m with
  | [] => [(k, [v])]
  | (k', vs) :: t =>
    if k' = k then (k', vs ++ [v]) :: t else (k', vs) :: appendAt t k v

/-- Append one value under a site/metric key pair. -/
def appendAtSite (m : List (String × List (String × List ℚ)))
    (site kpi : String) (v : ℚ) :
    List (String × List (String × List ℚ)) :=
  match m with
  | [] => [(site, appendAt [] kpi v)]
  | (s, inner) :: t =>
    if s = site then (s, appendAt inner kpi v) :: t
    else (s, inner) :: appendAtSite t site kpi v

/-- The triple returned by `summarize_kpis`. -/
structure KpiSummary where
  evidence : List (String × KpiStats)
  anomalies : List Anomaly
  kpi_by_site : List (String × List (String × List ℚ))

/-- `summarize_kpis`: evidence statistics, threshold anomalies, and the
site-grouped raw-value index. -/
def summarize_kpis (kpi_data : List KpiEntry) : KpiSummary :=
  { evidence :=
      (kpiNames kpi_data).map (fun n => (n, statsFor (valuesOf kpi_data n)))
    anomalies :=
      (kpiNames kpi_data).flatMap (fun n => anomaliesFor n (valuesOf kpi_data n))
    kpi_by_site :=
      kpi_data.foldl (fun m e =>
        match e.kpi, e.value with
        | some k, some v => appendAtSite m (e.site.getD "UNKNOWN") k v
        | _, _ => m) [] }

theorem mem_firstDedupAux_not_seen {seen l : List String} {x : String}
    (hx : x ∈ firstDedupAux seen l) : x ∉ seen := by
  induction l generalizing seen with
  | nil => simp [firstDedupAux] at hx
  | cons a t ih =>
    unfold firstDedupAux at hx
    split_ifs at hx with ha
    · exact ih hx
    · rcases List.mem_cons.mp hx with rfl | hx
      · exact ha
      · intro hseen
        exact ih hx (List.mem_cons_of_mem _ hseen)

theorem firstDedup_nodup (l : List String) : (firstDedup l).Nodup := by
  suffices h : ∀ seen, (firstDedupAux seen l).Nodup from h []
  induction l with
  | nil => intro seen; simp [firstDedupAux]
  | cons a t ih =>
    intro seen
    unfold firstDedupAux
    split_ifs with ha
    · exact ih seen
    · refine List.nodup_cons.mpr ⟨?_, ih (a :: seen)⟩
      intro hmem
      exact mem_firstDedupAux_not_seen hmem (List.mem_cons_self a seen)

theorem anomaliesFor_kpi (name : String) (vs : List ℚ) :
    ∀ a ∈ anomaliesFor name vs, a.kpi = name := by
  intro a ha
  unfold anomaliesFor at ha
  rcases h : thresholdFor name with _ | t
  · rw [h] at ha
    simp at ha
  · rw [h] at ha
    rcases t with ⟨tmin, tmax, u⟩
    rcases List.mem_append.mp ha with hm | hm
    · rcases tmin with _ | m
      · simp at hm
      · dsimp only at hm
        split_ifs at hm <;> simp_all
    · rcases tmax with _ | m
      · simp at hm
      · dsimp only at hm
        split_ifs at hm <;> simp_all

theorem flatMap_filter_kpi (names : List String) (g : String → List ℚ)
    (name : String) (hnd : names.Nodup) (hmem : name ∈ names) :
    (names.flatMap (fun n => anomaliesFor n (g n))).filter
        (fun a => a.kpi == name) = anomaliesFor name (g name) := by
  induction names with
  | nil => simp at hmem
  | cons a t ih =>
    rcases List.nodup_cons.mp hnd with ⟨hna, hnt⟩
    rw [List.flatMap_cons, List.filter_append]
    rcases List.mem_cons.mp hmem with rfl | hmem
    · have h1 : (anomaliesFor name (g name)).filter (fun x => x.kpi == name) =
          anomaliesFor name (g name) :=
        List.filter_eq_self.mpr (fun x hx => by
          simp [anomaliesFor_kpi name (g name) x hx])
      have h2 : (t.flatMap (fun n => anomaliesFor n (g n))).filter
          (fun x => x.kpi == name) = [] := by
        rw [List.filter_eq_nil_iff]
        intro x hx
        rcases List.mem_flatMap.mp hx with ⟨n, hn, hxn⟩
        have hk := anomaliesFor_kpi n (g n) x hxn
        simp only [hk, beq_iff_eq]
        intro hcontra
        exact hna (hcontra ▸ hn)
      rw [h1, h2, List.append_nil]
    · have h1 : (anomaliesFor a (g a)).filter (fun x => x.kpi == name) = [] := by
        rw [List.filter_eq_nil_iff]
        intro x hx
        have hk := anomaliesFor_kpi a (g a) x hx
        simp only [hk, beq_iff_eq]
        intro hcontra
        exact hna (hcontra ▸ hmem)
      rw [h1, ih hnt hmem, List.nil_append]

/-- C7: for every KPI sample sequence and metric appearing in it, a
metric absent from the threshold table yields no anomaly; a minimum-type
threshold yields exactly one `below_threshold` anomaly iff the metric's
mean is below the bound, with severity `high` iff the mean is below 80%
of the bound and `medium` otherwise; a maximum-type threshold yields
exactly one `above_threshold` anomaly iff the mean exceeds the bound,
with severity `high` iff the mean exceeds 120% of the bound and `medium`
otherwise. -/
theorem kpi_anomaly_spec (kpi_data : List KpiEntry) (name : String)
    (hmem : name ∈ kpiNames kpi_data) :
    (thresholdFor name = none →
      (summarize_kpis kpi_data).anomalies.filter (fun a => a.kpi == name) = []) ∧
    (∀ t u, thresholdFor name = some ⟨some t, none, u⟩ →
      (summarize_kpis kpi_data).anomalies.filter (fun a => a.kpi == name) =
        (if ratMean (valuesOf kpi_data name) < t then
          [{ kpi := name, type := "below_threshold",
             value := ratMean (valuesOf kpi_data name), threshold := t,
             severity := if ratMean (valuesOf kpi_data name) < t * 0.8
               then "high" else "medium" }]
         else [])) ∧
    (∀ t u, thresholdFor name = some ⟨none, some t, u⟩ →
      (summarize_kpis kpi_data).anomalies.filter (fun a => a.kpi == name) =
        (if ratMean (valuesOf kpi_data name) > t then
          [{ kpi := name, type := "above_threshold",
             value := ratMean (valuesOf kpi_data name), threshold := t,
             severity := if ratMean (valuesOf kpi_data name) > t * 1.2
               then "high" else "medium" }]
         else [])) := by
  have hfilter : (summarize_kpis kpi_data).anomalies.filter
      (fun a => a.kpi == name) =
      anomaliesFor name (valuesOf kpi_data name) :=
    flatMap_filter_kpi (kpiNames kpi_data) (valuesOf kpi_data) name
      (firstDedup_nodup _) hmem
  refine ⟨?_, ?_, ?_⟩
  · intro hnone
    rw [hfilter]
    unfold anomaliesFor
    rw [hnone]
  · intro t u hsome
    rw [hfilter]
    unfold anomaliesFor
    rw [hsome]
    split_ifs <;> simp_all
  · intro t u hsome
    rw [hfilter]
    unfold anomaliesFor
    rw [hsome]
    split_ifs <;> simp_all

/-- Witness for C7: the spec's scenario 4 — an RRC_Setup_Success_Rate
sample with mean 70 against minimum 95 yields exactly one
`below_threshold` anomaly of severity `high`. -/
theorem kpi_anomaly_spec_witness :
    (summarize_kpis [⟨some "RRC_Setup_Success_Rate", some "SiteA", some 70⟩]).anomalies.filter
        (fun a => a.kpi == "RRC_Setup_Success_Rate") =
      [{ kpi := "RRC_Setup_Success_Rate", type := "below_threshold",
         value := 70, threshold := 95, severity := "high" }] := by
  have hv : valuesOf [⟨some "RRC_Setup_Success_Rate", some "SiteA", some 70⟩]
      "RRC_Setup_Success_Rate" = [70] := by decide
  have hmean : ratMean (valuesOf
      [⟨some "RRC_Setup_Success_Rate", some "SiteA", some 70⟩]
      "RRC_Setup_Success_Rate") = 70 := by
    rw [hv]
    norm_num [ratMean]
  have h := (kpi_anomaly_spec
    [⟨some "RRC_Setup_Success_Rate", some "SiteA", some 70⟩]
    "RRC_Setup_Success_Rate" (by decide)).2.1 95 "%" (by decide)
  rw [h, hmean]
  norm_num

/-! ## Alarm records and summaries (`engine/alarm_analyzer.py`, data part)

Only the summary fields consumed by the fusion engine and the
summarization claims are needed here; the attach summary likewise models
the two fields the fusion engine reads (the per-identifier breakdowns are
not consumed by any claim). -/

/-- Canonical alarm record (`AlarmRecord` dataclass). -/
structure AlarmRecord where
  timestamp : String
  severity : String
  alarm_type : String
  mo : String
  alarm_id : String
  additional_text : String
  deriving DecidableEq, Repr

/-- Summary produced by `summarize_alarms`. -/
structure AlarmSummary where
  total_count : Nat
  by_severity : List (String × Nat)
  by_mo : List (String × Nat)
  timeline : List (String × Nat)
  sample : List AlarmRecord
  deriving DecidableEq, Repr

/-- The two fields of `summarize_attach`'s result consumed by the fusion
engine. -/
structure AttachSummary where
  overall_attach_success_rate : Option ℚ
  dominant_failure_category : Option String
  deriving DecidableEq, Repr

/-- Python `dict.get(key, 0)` on a counter dict. -/
def lookupCount (m : List (String × Nat)) (k : String) : Nat :=
  match m.find? (fun kv => kv.1 == k) with
  | some kv => kv.2
  | none => 0

/-! ## Multi-signal fusion engine (`engine/rca_engine.py`) -/

/-- `by_severity.get("CRITICAL", 0) + by_severity.get("MAJOR", 0)`. -/
def critMaj (al : AlarmSummary) : Nat :=
  lookupCount al.by_severity "CRITICAL" + lookupCount al.by_severity "MAJOR"

/-- `{"low": 1, "medium": 2, "high": 3}.get(severity, 1)`. -/
def sevScoreOf (severity : String) : Nat :=
  if severity = "low" then 1
  else if severity = "medium" then 2
  else if severity = "high" then 3
  else 1

/-- Map the numeric severity score back to a label. -/
def renderSeverity (score : Nat) : String :=
  if score ≥ 3 then "high" else if score = 2 then "medium" else "low"

/-- Alarm-driven escalation step of `_combine_with_additional_signals`;
the state is the running (root_cause, severity_score) pair. -/
def alarmStep (base_root_cause : String) (anomalies : List Anomaly)
    (alarm_summary : Option AlarmSummary) (st : String × Nat) :
    String × Nat :=
  match alarm_summary with
  | none => st
  | some al =>
    if al.total_count > 0 then
      if critMaj al > 0 then
        if anomalies.any (fun a => a.kpi == "S1_Setup_Failure_Rate") then
          ("Transport/TIMING Fault (Alarms corroborated)", max st.2 3)
        else
          ((if base_root_cause = "Normal Operation" then "Active Network Alarms"
            else base_root_cause ++ " with Active Alarms"), max st.2 2)
      else st
    else st

/-- Backhaul-driven escalation step; note that the source consults the
baseline root cause, not the running one. -/
def backhaulStep (base_root_cause : String)
    (backhaul_summary : Option BackhaulSummary) (st : String × Nat) :
    String × Nat :=
  match backhaul_summary with
  | none => st
  | some bs =>
    if bs.impairment_score > 0.5 then
      ((if strHasSub base_root_cause "Microwave"
            || strHasSub base_root_cause "Transport" then
          "Backhaul Impairment (Microwave/Fiber)"
        else if base_root_cause = "Normal Operation" then "Backhaul Impairment"
        else st.1), max st.2 3)
    else st

/-- Attach-failure escalation step. -/
def attachStep (attach_summary : Option AttachSummary) (st : String × Nat) :
    String × Nat :=
  match attach_summary with
  | none => st
  | some ats =>
    match ats.overall_attach_success_rate with
    | none => st
    | some success =>
      if success < 95 then
        ((if ats.dominant_failure_category = some "APN_QCI" then
            "CPE Attach Failures - APN/QCI Configuration"
          else if ats.dominant_failure_category = some "TAC" then
            "CPE Attach Failures - TAC / Mobility Configuration"
          else if ats.dominant_failure_category = some "RF" then
            "CPE Attach Failures - RF / Coverage"
          else if ats.dominant_failure_category = some "Congestion" then
            "CPE Attach Failures - Congestion Driven"
          else st.1), max st.2 3)
      else st

/-- `_combine_with_additional_signals`: ordered escalation over the
baseline classification. -/
def combine_with_additional_signals (base_root_cause base_severity : String)
    (anomalies : List Anomaly) (alarm_summary : Option AlarmSummary)
    (backhaul_summary : Option BackhaulSummary)
    (attach_summary : Option AttachSummary) : String × String :=
  let st0 := (base_root_cause, sevScoreOf base_severity)
  let st1 := alarmStep base_root_cause anomalies alarm_summary st0
  let st2 := backhaulStep base_root_cause backhaul_summary st1
  let st3 := attachStep attach_summary st2
  (st3.1, renderSeverity st3.2)

theorem alarmStep_score_mono (brc : String) (anomalies : List Anomaly)
    (a? : Option AlarmSummary) (st : String × Nat) :
    st.2 ≤ (alarmStep brc anomalies a? st).2 := by
  unfold alarmStep
  rcases a? with _ | al
  · exact le_refl _
  · dsimp only
    split_ifs <;> simp [Nat.le_max_left]

theorem backhaulStep_score_mono (brc : String) (b? : Option BackhaulSummary)
    (st : String × Nat) : st.2 ≤ (backhaulStep brc b? st).2 := by
  unfold backhaulStep
  rcases b? with _ | bs
  · exact le_refl _
  · dsimp only
    split_ifs <;> simp [Nat.le_max_left]

theorem attachStep_score_mono (at? : Option AttachSummary)
    (st : String × Nat) : st.2 ≤ (attachStep at? st).2 := by
  unfold attachStep
  rcases at? with _ | ats
  · exact le_refl _
  · dsimp only
    rcases ats.overall_attach_success_rate with _ | r
    · exact le_refl _
    · dsimp only
      split_ifs <;> simp [Nat.le_max_left]

theorem sevScoreOf_renderSeverity (s : Nat) :
    sevScoreOf (renderSeverity s) = max 1 (min s 3) := by
  unfold renderSeverity sevScoreOf
  split_ifs <;> simp_all <;> omega

theorem renderSeverity_of_ge {s : Nat} (h : 3 ≤ s) :
    renderSeverity s = "high" := by
  unfold renderSeverity
  rw [if_pos h]

/-- C3: the fused severity never drops below the baseline severity (on
the order low < medium < high), and each escalation enforces its floor
independently: an alarm summary with a CRITICAL or MAJOR count forces at
least medium, a backhaul summary with impairment score above 0.5 forces
high, and an attach summary with a known success rate below 95 forces
high. -/
theorem fusion_severity_floors (brc bsev : String) (anomalies : List Anomaly)
    (a? : Option AlarmSummary) (b? : Option BackhaulSummary)
    (at? : Option AttachSummary) :
    ((bsev = "low" ∨ bsev = "medium" ∨ bsev = "high") →
      sevScoreOf bsev ≤ sevScoreOf
        (combine_with_additional_signals brc bsev anomalies a? b? at?).2) ∧
    (∀ al, a? = some al → 0 < al.total_count → 0 < critMaj al →
      2 ≤ sevScoreOf
        (combine_with_additional_signals brc bsev anomalies a? b? at?).2) ∧
    (∀ bs, b? = some bs → (0.5 : ℚ) < bs.impairment_score →
      (combine_with_additional_signals brc bsev anomalies a? b? at?).2 = "high") ∧
    (∀ ats r, at? = some ats → ats.overall_attach_success_rate = some r →
      r < 95 →
      (combine_with_additional_signals brc bsev anomalies a? b? at?).2 = "high") := by
  have hmono1 := alarmStep_score_mono brc anomalies a? (brc, sevScoreOf bsev)
  have hmono2 := backhaulStep_score_mono brc b?
    (alarmStep brc anomalies a? (brc, sevScoreOf bsev))
  have hmono3 := attachStep_score_mono at?
    (backhaulStep brc b? (alarmStep brc anomalies a? (brc, sevScoreOf bsev)))
  refine ⟨?_, ?_, ?_, ?_⟩
  · intro hb
    show sevScoreOf bsev ≤ sevScoreOf (renderSeverity _)
    rw [sevScoreOf_renderSeverity]
    have hb3 : sevScoreOf bsev ≤ 3 := by
      rcases hb with rfl | rfl | rfl <;> simp [sevScoreOf]
    omega
  · intro al ha h1 h2
    subst ha
    have hstep : 2 ≤ (alarmStep brc anomalies (some al)
        (brc, sevScoreOf bsev)).2 := by
      unfold alarmStep
      dsimp only
      rw [if_pos h1, if_pos h2]
      split_ifs <;> simp
    show 2 ≤ sevScoreOf (renderSeverity _)
    rw [sevScoreOf_renderSeverity]
    omega
  · intro bs hb hsc
    subst hb
    have hstep : 3 ≤ (backhaulStep brc (some bs)
        (alarmStep brc anomalies a? (brc, sevScoreOf bsev))).2 := by
      unfold backhaulStep
      dsimp only
      rw [if_pos hsc]
      simp [Nat.le_max_right]
    show renderSeverity _ = "high"
    exact renderSeverity_of_ge (le_trans hstep hmono3)
  · intro ats r hat hr hlt
    subst hat
    have hstep : 3 ≤ (attachStep (some ats)
        (backhaulStep brc b?
          (alarmStep brc anomalies a? (brc, sevScoreOf bsev)))).2 := by
      unfold attachStep
      dsimp only
      rw [hr]
      dsimp only
      rw [if_pos hlt]
      simp [Nat.le_max_right]
    show renderSeverity _ = "high"
    exact renderSeverity_of_ge hstep

/-- Witness for C3 with all three escalations firing at once. -/
theorem fusion_severity_floors_witness :
    (1 ≤ sevScoreOf (combine_with_additional_signals "Normal Operation" "low" []
      (some ⟨2, [("CRITICAL", 2)], [("MO1", 2)], [("h", 2)], []⟩)
      (some ⟨1, 0.6, [], [], [], 0, 0⟩)
      (some ⟨some 50, some "RF"⟩)).2) ∧
    (2 ≤ sevScoreOf (combine_with_additional_signals "Normal Operation" "low" []
      (some ⟨2, [("CRITICAL", 2)], [("MO1", 2)], [("h", 2)], []⟩)
      (some ⟨1, 0.6, [], [], [], 0, 0⟩)
      (some ⟨some 50, some "RF"⟩)).2) ∧
    (combine_with_additional_signals "Normal Operation" "low" []
      (some ⟨2, [("CRITICAL", 2)], [("MO1", 2)], [("h", 2)], []⟩)
      (some ⟨1, 0.6, [], [], [], 0, 0⟩)
      (some ⟨some 50, some "RF"⟩)).2 = "high" := by
  have h := fusion_severity_floors "Normal Operation" "low" []
    (some ⟨2, [("CRITICAL", 2)], [("MO1", 2)], [("h", 2)], []⟩)
    (some ⟨1, 0.6, [], [], [], 0, 0⟩)
    (some ⟨some 50, some "RF"⟩)
  refine ⟨?_, ?_, ?_⟩
  · have := h.1 (Or.inl rfl)
    simpa [sevScoreOf] using this
  · exact h.2.1 ⟨2, [("CRITICAL", 2)], [("MO1", 2)], [("h", 2)], []⟩ rfl
      (by decide) (by decide)
  · exact h.2.2.1 ⟨1, 0.6, [], [], [], 0, 0⟩ rfl (by norm_num)

theorem backhaulStep_no_fire {brc : String} {b? : Option BackhaulSummary}
    {st : String × Nat}
    (hb : ∀ bs, b? = some bs → bs.impairment_score ≤ 0.5) :
    backhaulStep brc b? st = st := by
  rcases b? with _ | bs
  · rfl
  · unfold backhaulStep
    dsimp only
    rw [if_neg (not_lt.mpr (hb bs rfl))]

theorem attachStep_no_fire {at? : Option AttachSummary} {st : String × Nat}
    (hat : ∀ ats r, at? = some ats →
      ats.overall_attach_success_rate = some r → 95 ≤ r) :
    attachStep at? st = st := by
  rcases at? with _ | ats
  · rfl
  · unfold attachStep
    dsimp only
    rcases hr : ats.overall_attach_success_rate with _ | r
    · rfl
    · dsimp only
      rw [if_neg (not_lt.mpr (hat ats r rfl hr))]

/-- C1 (amended): a backhaul summary with impairment score above 0.5
forces severity high; the root-cause label becomes
"Backhaul Impairment (Microwave/Fiber)" when the baseline root cause
mentions Microwave or Transport, "Backhaul Impairment" when the baseline
is exactly "Normal Operation", and is otherwise left at the value the
alarm step produced (no override); the specialization consults the
baseline root cause, not the current one. -/
theorem backhaul_escalation_shape (brc bsev : String)
    (anomalies : List Anomaly) (a? : Option AlarmSummary)
    (bs : BackhaulSummary) (h : (0.5 : ℚ) < bs.impairment_score) :
    (combine_with_additional_signals brc bsev anomalies a? (some bs) none).2
      = "high" ∧
    (combine_with_additional_signals brc bsev anomalies a? (some bs) none).1
      = (if strHasSub brc "Microwave" || strHasSub brc "Transport" then
          "Backhaul Impairment (Microwave/Fiber)"
         else if brc = "Normal Operation" then "Backhaul Impairment"
         else (combine_with_additional_signals brc bsev anomalies
           a? none none).1) := by
  have hb : backhaulStep brc (some bs)
      (alarmStep brc anomalies a? (brc, sevScoreOf bsev)) =
      ((if strHasSub brc "Microwave" || strHasSub brc "Transport" then
          "Backhaul Impairment (Microwave/Fiber)"
        else if brc = "Normal Operation" then "Backhaul Impairment"
        else (alarmStep brc anomalies a? (brc, sevScoreOf bsev)).1),
       max (alarmStep brc anomalies a? (brc, sevScoreOf bsev)).2 3) := by
    unfold backhaulStep
    dsimp only
    rw [if_pos h]
  have hcombine : combine_with_additional_signals brc bsev anomalies
      a? (some bs) none =
      ((backhaulStep brc (some bs)
          (alarmStep brc anomalies a? (brc, sevScoreOf bsev))).1,
       renderSeverity (backhaulStep brc (some bs)
          (alarmStep brc anomalies a? (brc, sevScoreOf bsev))).2) := rfl
  have hnone : combine_with_additional_signals brc bsev anomalies
      a? none none =
      ((alarmStep brc anomalies a? (brc, sevScoreOf bsev)).1,
       renderSeverity (alarmStep brc anomalies a? (brc, sevScoreOf bsev)).2)
      := rfl
  constructor
  · rw [hcombine, hb]
    exact renderSeverity_of_ge (Nat.le_max_right _ _)
  · rw [hcombine, hb, hnone]

/-- Witness for C1 at a concrete invocation whose baseline root cause is
"Normal Operation". -/
theorem backhaul_escalation_shape_witness :
    (combine_with_additional_signals "Normal Operation" "low" [] none
        (some ⟨1, 0.6, [], [], [], 0, 0⟩) none).2 = "high" ∧
    (combine_with_additional_signals "Normal Operation" "low" [] none
        (some ⟨1, 0.6, [], [], [], 0, 0⟩) none).1
      = (if strHasSub "Normal Operation" "Microwave"
            || strHasSub "Normal Operation" "Transport" then
          "Backhaul Impairment (Microwave/Fiber)"
         else if "Normal Operation" = "Normal Operation" then
          "Backhaul Impairment"
         else (combine_with_additional_signals "Normal Operation" "low" []
           none none none).1) :=
  backhaul_escalation_shape "Normal Operation" "low" [] none
    ⟨1, 0.6, [], [], [], 0, 0⟩ (by norm_num)

/-- Counterexample for C1 as stated: with baseline root cause
"Cell Congestion" (mentioning neither Microwave nor Transport, and not
"Normal Operation") and impairment score 0.6, the returned root cause is
left unchanged instead of being overridden to a backhaul-impairment
label; and with baseline "Normal Operation" plus corroborated alarms the
current root cause mentions Transport, yet the Microwave/Fiber
specialization is not applied, because the source consults the baseline
label rather than the current one. -/
theorem backhaul_escalation_cx :
    combine_with_additional_signals "Cell Congestion" "low" [] none
        (some ⟨1, 0.6, [], [], [], 0, 0⟩) none =
      ("Cell Congestion", "high") ∧
    ("Cell Congestion" ≠ "Backhaul Impairment" ∧
     "Cell Congestion" ≠ "Backhaul Impairment (Microwave/Fiber)") ∧
    combine_with_additional_signals "Normal Operation" "low"
        [⟨"S1_Setup_Failure_Rate", "above_threshold", 2, 1, "high"⟩]
        (some ⟨2, [("CRITICAL", 2)], [("MO", 2)], [("h", 2)], []⟩)
        (some ⟨1, 0.6, [], [], [], 0, 0⟩) none =
      ("Backhaul Impairment", "high") ∧
    (alarmStep "Normal Operation"
        [⟨"S1_Setup_Failure_Rate", "above_threshold", 2, 1, "high"⟩]
        (some ⟨2, [("CRITICAL", 2)], [("MO", 2)], [("h", 2)], []⟩)
        ("Normal Operation", 1)).1 =
      "Transport/TIMING Fault (Alarms corroborated)" ∧
    strHasSub "Transport/TIMING Fault (Alarms corroborated)" "Transport"
      = true ∧
    "Backhaul Impairment" ≠ "Backhaul Impairment (Microwave/Fiber)" := by
  have h05 : ((0.6 : ℚ) > 0.5) := by norm_num
  refine ⟨?_, ⟨by decide, by decide⟩, ?_, by decide, by decide, by decide⟩
  · unfold combine_with_additional_signals attachStep backhaulStep alarmStep
    dsimp only
    rw [if_pos h05]
    decide
  · unfold combine_with_additional_signals attachStep backhaulStep alarmStep
    dsimp only
    rw [if_pos h05]
    decide

/-- C2 (amended): given an alarm summary containing at least one CRITICAL
or MAJOR alarm, and provided no backhaul summary with impairment above
0.5 and no attach summary with a known success rate below 95 is supplied
(either would let a later escalation overwrite the label), an
S1_Setup_Failure_Rate anomaly yields root cause
"Transport/TIMING Fault (Alarms corroborated)" with severity high; with
no such anomaly the root cause gains the "Active Alarms" qualifier
(exactly "Active Network Alarms" on a "Normal Operation" baseline) and
severity is at least medium. -/
theorem alarm_escalation_shape (brc bsev : String) (anomalies : List Anomaly)
    (a? : Option AlarmSummary) (b? : Option BackhaulSummary)
    (at? : Option AttachSummary) (al : AlarmSummary)
    (ha : a? = some al) (h1 : 0 < al.total_count) (h2 : 0 < critMaj al)
    (hb : ∀ bs, b? = some bs → bs.impairment_score ≤ 0.5)
    (hat : ∀ ats r, at? = some ats →
      ats.overall_attach_success_rate = some r → 95 ≤ r) :
    (anomalies.any (fun a => a.kpi == "S1_Setup_Failure_Rate") = true →
      combine_with_additional_signals brc bsev anomalies a? b? at? =
        ("Transport/TIMING Fault (Alarms corroborated)", "high")) ∧
    (anomalies.any (fun a => a.kpi == "S1_Setup_Failure_Rate") = false →
      (combine_with_additional_signals brc bsev anomalies a? b? at?).1 =
        (if brc = "Normal Operation" then "Active Network Alarms"
         else brc ++ " with Active Alarms") ∧
      2 ≤ sevScoreOf
        (combine_with_additional_signals brc bsev anomalies a? b? at?).2) := by
  subst ha
  have hcombine : combine_with_additional_signals brc bsev anomalies
      (some al) b? at? =
      ((alarmStep brc anomalies (some al) (brc, sevScoreOf bsev)).1,
       renderSeverity
         (alarmStep brc anomalies (some al) (brc, sevScoreOf bsev)).2) := by
    unfold combine_with_additional_signals
    dsimp only
    rw [backhaulStep_no_fire hb, attachStep_no_fire hat]
  constructor
  · intro hany
    have hstep : alarmStep brc anomalies (some al) (brc, sevScoreOf bsev) =
        ("Transport/TIMING Fault (Alarms corroborated)",
         max (sevScoreOf bsev) 3) := by
      unfold alarmStep
      dsimp only
      rw [if_pos h1, if_pos h2, if_pos hany]
    rw [hcombine, hstep]
    have : renderSeverity (max (sevScoreOf bsev) 3) = "high" :=
      renderSeverity_of_ge (Nat.le_max_right _ _)
    rw [this]
  · intro hany
    have hstep : alarmStep brc anomalies (some al) (brc, sevScoreOf bsev) =
        ((if brc = "Normal Operation" then "Active Network Alarms"
          else brc ++ " with Active Alarms"),
         max (sevScoreOf bsev) 2) := by
      unfold alarmStep
      dsimp only
      rw [if_pos h1, if_pos h2, if_neg (by simp [hany])]
    rw [hcombine, hstep]
    refine ⟨rfl, ?_⟩
    rw [sevScoreOf_renderSeverity]
    omega

/-- Witness for C2: the spec's scenario 5 — an S1 setup-failure anomaly
plus two CRITICAL alarms yields the transport/timing label and severity
high. -/
theorem alarm_escalation_shape_witness :
    combine_with_additional_signals "Normal Operation" "low"
        [⟨"S1_Setup_Failure_Rate", "above_threshold", 2, 1, "high"⟩]
        (some ⟨2, [("CRITICAL", 2)], [("MO", 2)], [("h", 2)], []⟩)
        none none =
      ("Transport/TIMING Fault (Alarms corroborated)", "high") :=
  (alarm_escalation_shape "Normal Operation" "low"
    [⟨"S1_Setup_Failure_Rate", "above_threshold", 2, 1, "high"⟩]
    (some ⟨2, [("CRITICAL", 2)], [("MO", 2)], [("h", 2)], []⟩)
    none none ⟨2, [("CRITICAL", 2)], [("MO", 2)], [("h", 2)], []⟩
    rfl (by decide) (by decide)
    (fun bs hbs => by simp at hbs) (fun ats r hats => by simp at hats)).1
    (by decide)

/-- Counterexample for C2 as stated: the same CRITICAL-alarm summary and
S1 anomaly, but with a degraded backhaul summary also supplied; the later
backhaul step overwrites the label, so the returned root cause no longer
contains "Transport/TIMING Fault" even though severity stays high. -/
theorem alarm_escalation_cx :
    combine_with_additional_signals "Normal Operation" "low"
        [⟨"S1_Setup_Failure_Rate", "above_threshold", 2, 1, "high"⟩]
        (some ⟨2, [("CRITICAL", 2)], [("MO2", 2)], [("h2", 2)], []⟩)
        (some ⟨1, 0.6, [], [], [], 0, 0⟩) none =
      ("Backhaul Impairment", "high") ∧
    strHasSub "Backhaul Impairment" "Transport/TIMING Fault" = false := by
  have h05 : ((0.6 : ℚ) > 0.5) := by norm_num
  refine ⟨?_, by decide⟩
  unfold combine_with_additional_signals attachStep backhaulStep alarmStep
  dsimp only
  rw [if_pos h05]
  decide

/-! ## Recommendation aggregation (`analyze_rca` and
`_extra_recommendations`) -/

/-- Insert a string into a strictly sorted duplicate-free list, keeping
it strictly sorted; folding this over a list models Python's
`sorted(set(xs))`. -/
def insSorted (a : String) : List String → List String
  | [] => [a]
  | b :: t =>
    if a < b then a :: b :: t
    else if a = b then b :: t
    else b :: insSorted a t

/-- Python `sorted(set(l))`. -/
def sortedSet (l : List String) : List String := l.foldr insSorted []

theorem mem_insSorted {a x : String} {l : List String} :
    x ∈ insSorted a l ↔ x = a ∨ x ∈ l := by
  induction l with
  | nil => simp [insSorted]
  | cons b t ih =>
    unfold insSorted
    split_ifs with h1 h2
    · simp [List.mem_cons]
    · subst h2
      simp only [List.mem_cons]
      tauto
    · simp only [List.mem_cons, ih]
      tauto

theorem sorted_insSorted {a : String} {l : List String}
    (h : l.Sorted (· < ·)) : (insSorted a l).Sorted (· < ·) := by
  induction l with
  | nil => simp [insSorted]
  | cons b t ih =>
    rcases List.pairwise_cons.mp h with ⟨hb, ht⟩
    unfold insSorted
    split_ifs with h1 h2
    · refine List.pairwise_cons.mpr ⟨?_, h⟩
      intro x hx
      rcases List.mem_cons.mp hx with rfl | hx
      · exact h1
      · exact lt_trans h1 (hb x hx)
    · exact h
    · refine List.pairwise_cons.mpr ⟨?_, ih ht⟩
      intro x hx
      rcases mem_insSorted.mp hx with rfl | hx
      · exact lt_of_le_of_ne (not_lt.mp h1) (fun hba => h2 hba.symm)
      · exact hb x hx

theorem sortedSet_sorted (l : List String) :
    (sortedSet l).Sorted (· < ·) := by
  induction l with
  | nil => simp [sortedSet]
  | cons a t ih => exact sorted_insSorted ih

theorem sortedSet_nodup (l : List String) : (sortedSet l).Nodup :=
  (sortedSet_sorted l).imp (fun h => ne_of_lt h)

theorem mem_sortedSet {x : String} {l : List String} :
    x ∈ sortedSet l ↔ x ∈ l := by
  induction l with
  | nil => simp [sortedSet]
  | cons a t ih =>
    show x ∈ insSorted a (sortedSet t) ↔ _
    rw [mem_insSorted, ih]
    simp [List.mem_cons]

/-- Ideal round-half-to-even of a rational; models the rounding Python's
`format` applies at the requested precision (the comparison with 1/2 is
phrased as `2*frac` versus 1 to stay division-free). -/
def roundHalfEven (x : ℚ) : ℤ :=
  let f := ⌊x⌋
  let twice := (x - f) * 2
  if twice < 1 then f
  else if 1 < twice then f + 1
  else if f % 2 = 0 then f else f + 1

/-- Python's `f"{x:.1f}"`: the value rendered to one decimal place. -/
def fmt1 (q : ℚ) : String :=
  let n := roundHalfEven (q * 10)
  if n < 0 then
    "-" ++ toString ((-n).toNat / 10) ++ "." ++ toString ((-n).toNat % 10)
  else
    toString (n.toNat / 10) ++ "." ++ toString (n.toNat % 10)

/-- Alarm-review recommendations of `_extra_recommendations`. -/
def alarmRecs (a? : Option AlarmSummary) : List String :=
  match a? with
  | some al =>
    if al.total_count > 0 then
      ["Review active CRITICAL/MAJOR alarms in ENM for impacted MOs.",
       "Verify whether alarms coincide with KPI degradation periods."]
    else []
  | none => []

/-- Backhaul-correlation recommendations of `_extra_recommendations`. -/
def backhaulRecs (b? : Option BackhaulSummary) : List String :=
  match b? with
  | some bsm =>
    if bsm.impairment_score > 0.5 then
      ["Investigate microwave/fiber backhaul modulation drops and high jitter.",
       "Correlate backhaul RSSI and error counters with BLER and ERAB failures."]
    else []
  | none => []

/-- Attach drill-down recommendations of `_extra_recommendations`. -/
def attachRecs (at? : Option AttachSummary) : List String :=
  match at? with
  | some ats =>
    match ats.overall_attach_success_rate with
    | some success =>
      if success < 95 then
        ("Investigate attach failures; overall attach success rate is "
           ++ fmt1 success ++ "%.") ::
        (if ats.dominant_failure_category = some "APN_QCI" then
           ["Check APN, QCI, and bearer configuration for impacted IMSIs and APNs."]
         else if ats.dominant_failure_category = some "TAC" then
           ["Verify TAC assignment and mobility configuration for affected cells."]
         else if ats.dominant_failure_category = some "RF" then
           ["Check RF coverage, SINR, and interference around sites with high attach failures."]
         else if ats.dominant_failure_category = some "Congestion" then
           ["Correlate attach failures with congestion indicators (PRB utilization, throughput)."]
         else [])
      else []
    | none => []
  | none => []

/-- `_extra_recommendations`: the three per-domain blocks in source
order. -/
def extra_recommendations (a? : Option AlarmSummary)
    (b? : Option BackhaulSummary) (at? : Option AttachSummary) :
    List String :=
  alarmRecs a? ++ backhaulRecs b? ++ attachRecs at?

/-- The structured result of `analyze_rca`. -/
structure RcaResult where
  root_cause : String
  severity : String
  evidence : List (String × KpiStats)
  anomalies : List Anomaly
  recommendations : List String

/-- `analyze_rca`: the fusion entry point, parameterized over the legacy
KPI-only classifier (`engine.rca.determine_root_cause` and
`engine.rca.generate_recommendations`), which the spec treats as an
external fixed baseline capability. -/
def analyze_rca
    (legacyDetermine : List (String × KpiStats) → List Anomaly →
      List (String × List (String × List ℚ)) → String × String)
    (legacyRecommend : String → List (String × KpiStats) →
      List Anomaly → List String)
    (kpi_data : List KpiEntry) (alarm_summary : Option AlarmSummary)
    (backhaul_summary : Option BackhaulSummary)
    (attach_summary : Option AttachSummary) : RcaResult :=
  if kpi_data = [] then
    { root_cause := "No Data", severity := "low", evidence := [],
      anomalies := [],
      recommendations := ["No KPI data available for analysis"] }
  else
    let r := summarize_kpis kpi_data
    let base := legacyDetermine r.evidence r.anomalies r.kpi_by_site
    let recs := legacyRecommend base.1 r.evidence r.anomalies
    let rcsev := combine_with_additional_signals base.1 base.2 r.anomalies
      alarm_summary backhaul_summary attach_summary
    { root_cause := rcsev.1, severity := rcsev.2, evidence := r.evidence,
      anomalies := r.anomalies,
      recommendations := sortedSet (recs ++
        extra_recommendations alarm_summary backhaul_summary attach_summary) }

theorem mem_alarmRecs {a? : Option AlarmSummary} {rcm : String} :
    rcm ∈ alarmRecs a? ↔
      ∃ al, a? = some al ∧ 0 < al.total_count ∧
        (rcm = "Review active CRITICAL/MAJOR alarms in ENM for impacted MOs."
         ∨ rcm = "Verify whether alarms coincide with KPI degradation periods.") := by
  rcases a? with _ | al
  · simp [alarmRecs]
  · unfold alarmRecs
    dsimp only
    split_ifs with h
    · simp only [List.mem_cons, List.mem_singleton, Option.some.injEq]
      constructor
      · intro hx
        exact ⟨al, rfl, h, by simpa using hx⟩
      · rintro ⟨al', rfl, _, hx⟩
        simpa using hx
    · simp only [List.not_mem_nil, false_iff]
      rintro ⟨al', heq, hcount, _⟩
      cases heq
      exact h hcount

theorem mem_backhaulRecs {b? : Option BackhaulSummary} {rcm : String} :
    rcm ∈ backhaulRecs b? ↔
      ∃ bsm, b? = some bsm ∧ (0.5 : ℚ) < bsm.impairment_score ∧
        (rcm = "Investigate microwave/fiber backhaul modulation drops and high jitter."
         ∨ rcm = "Correlate backhaul RSSI and error counters with BLER and ERAB failures.") := by
  rcases b? with _ | bsm
  · simp [backhaulRecs]
  · unfold backhaulRecs
    dsimp only
    split_ifs with h
    · simp only [List.mem_cons, List.mem_singleton, Option.some.injEq]
      constructor
      · intro hx
        exact ⟨bsm, rfl, h, by simpa using hx⟩
      · rintro ⟨bsm', rfl, _, hx⟩
        simpa using hx
    · simp only [List.not_mem_nil, false_iff]
      rintro ⟨bsm', heq, hsc, _⟩
      cases heq
      exact h hsc

theorem mem_attachRecs {at? : Option AttachSummary} {rcm : String} :
    rcm ∈ attachRecs at? ↔
      ∃ ats rate, at? = some ats ∧
        ats.overall_attach_success_rate = some rate ∧ rate < 95 ∧
        (rcm = "Investigate attach failures; overall attach success rate is "
            ++ fmt1 rate ++ "%." ∨
         (ats.dominant_failure_category = some "APN_QCI" ∧
          rcm = "Check APN, QCI, and bearer configuration for impacted IMSIs and APNs.") ∨
         (ats.dominant_failure_category = some "TAC" ∧
          rcm = "Verify TAC assignment and mobility configuration for affected cells.") ∨
         (ats.dominant_failure_category = some "RF" ∧
          rcm = "Check RF coverage, SINR, and interference around sites with high attach failures.") ∨
         (ats.dominant_failure_category = some "Congestion" ∧
          rcm = "Correlate attach failures with congestion indicators (PRB utilization, throughput).")) := by
  rcases at? with _ | ats
  · simp [attachRecs]
  · unfold attachRecs
    dsimp only
    rcases hr : ats.overall_attach_success_rate with _ | rate
    · simp only [List.not_mem_nil, false_iff]
      rintro ⟨ats', rate', heq, hrate, _⟩
      cases heq
      rw [hr] at hrate
      cases hrate
    · dsimp only
      by_cases h95 : rate < 95
      · rw [if_pos h95]
        split_ifs with h1 h2 h3 h4 <;>
        · constructor
          · intro hx
            refine ⟨ats, rate, rfl, hr, h95, ?_⟩
            simp only [List.mem_cons, List.mem_singleton,
              List.not_mem_nil, or_false] at hx
            simp_all
          · rintro ⟨ats', rate', heq, hrate, hlt, hx⟩
            cases heq
            rw [hr] at hrate
            cases hrate
            simp_all
      · rw [if_neg h95]
        simp only [List.not_mem_nil, false_iff]
        rintro ⟨ats', rate', heq, hrate, hlt, _⟩
        cases heq
        rw [hr] at hrate
        cases hrate
        exact h95 hlt

/-- C8 (amended): for every fusion invocation with KPI data, the returned
recommendation list is strictly sorted and duplicate-free, and a string
belongs to it iff it is one of the baseline classifier's recommendations
or one of the fixed per-domain strings whose trigger condition holds: the
alarm-review strings for an alarm summary with at least one record, the
backhaul-correlation strings for a backhaul summary with impairment score
above 0.5, and the attach drill-down strings (the first interpolating the
success rate to one decimal place) for an attach summary with a known
success rate below 95. -/
theorem analyze_rca_recommendations
    (legacyDetermine : List (String × KpiStats) → List Anomaly →
      List (String × List (String × List ℚ)) → String × String)
    (legacyRecommend : String → List (String × KpiStats) →
      List Anomaly → List String)
    (kpi_data : List KpiEntry) (a? : Option AlarmSummary)
    (b? : Option BackhaulSummary) (at? : Option AttachSummary)
    (hk : kpi_data ≠ []) :
    (analyze_rca legacyDetermine legacyRecommend kpi_data
      a? b? at?).recommendations.Sorted (· < ·) ∧
    (analyze_rca legacyDetermine legacyRecommend kpi_data
      a? b? at?).recommendations.Nodup ∧
    (∀ rcm, rcm ∈ (analyze_rca legacyDetermine legacyRecommend kpi_data
        a? b? at?).recommendations ↔
      (rcm ∈ legacyRecommend
          (legacyDetermine (summarize_kpis kpi_data).evidence
            (summarize_kpis kpi_data).anomalies
            (summarize_kpis kpi_data).kpi_by_site).1
          (summarize_kpis kpi_data).evidence
          (summarize_kpis kpi_data).anomalies ∨
       (∃ al, a? = some al ∧ 0 < al.total_count ∧
         (rcm = "Review active CRITICAL/MAJOR alarms in ENM for impacted MOs."
          ∨ rcm = "Verify whether alarms coincide with KPI degradation periods.")) ∨
       (∃ bsm, b? = some bsm ∧ (0.5 : ℚ) < bsm.impairment_score ∧
         (rcm = "Investigate microwave/fiber backhaul modulation drops and high jitter."
          ∨ rcm = "Correlate backhaul RSSI and error counters with BLER and ERAB failures.")) ∨
       (∃ ats rate, at? = some ats ∧
         ats.overall_attach_success_rate = some rate ∧ rate < 95 ∧
         (rcm = "Investigate attach failures; overall attach success rate is "
             ++ fmt1 rate ++ "%." ∨
          (ats.dominant_failure_category = some "APN_QCI" ∧
           rcm = "Check APN, QCI, and bearer configuration for impacted IMSIs and APNs.") ∨
          (ats.dominant_failure_category = some "TAC" ∧
           rcm = "Verify TAC assignment and mobility configuration for affected cells.") ∨
          (ats.dominant_failure_category = some "RF" ∧
           rcm = "Check RF coverage, SINR, and interference around sites with high attach failures.") ∨
          (ats.dominant_failure_category = some "Congestion" ∧
           rcm = "Correlate attach failures with congestion indicators (PRB utilization, throughput)."))))) := by
  have hout : (analyze_rca legacyDetermine legacyRecommend kpi_data
      a? b? at?).recommendations =
      sortedSet (legacyRecommend
          (legacyDetermine (summarize_kpis kpi_data).evidence
            (summarize_kpis kpi_data).anomalies
            (summarize_kpis kpi_data).kpi_by_site).1
          (summarize_kpis kpi_data).evidence
          (summarize_kpis kpi_data).anomalies ++
        extra_recommendations a? b? at?) := by
    unfold analyze_rca
    rw [if_neg hk]
  refine ⟨?_, ?_, ?_⟩
  · rw [hout]
    exact sortedSet_sorted _
  · rw [hout]
    exact sortedSet_nodup _
  · intro rcm
    rw [hout, mem_sortedSet]
    simp only [extra_recommendations, List.mem_append,
      mem_alarmRecs, mem_backhaulRecs, mem_attachRecs]
    simp only [or_assoc]

/-- Witness for C8 at a concrete invocation with an empty baseline
recommendation list and a degraded backhaul summary. -/
theorem analyze_rca_recommendations_witness :
    (analyze_rca (fun _ _ _ => ("Normal Operation", "low")) (fun _ _ _ => [])
      [⟨some "SINR_Avg", some "S", some 10⟩] none
      (some ⟨1, 0.6, [], [], [], 0, 0⟩) none).recommendations.Sorted (· < ·) ∧
    (analyze_rca (fun _ _ _ => ("Normal Operation", "low")) (fun _ _ _ => [])
      [⟨some "SINR_Avg", some "S", some 10⟩] none
      (some ⟨1, 0.6, [], [], [], 0, 0⟩) none).recommendations.Nodup ∧
    ("Investigate microwave/fiber backhaul modulation drops and high jitter."
        ∈ (analyze_rca (fun _ _ _ => ("Normal Operation", "low"))
          (fun _ _ _ => []) [⟨some "SINR_Avg", some "S", some 10⟩] none
          (some ⟨1, 0.6, [], [], [], 0, 0⟩) none).recommendations ↔
      ("Investigate microwave/fiber backhaul modulation drops and high jitter."
          ∈ (fun (_ : List (String × KpiStats)) (_ : List Anomaly) =>
            ([] : List String))
            (summarize_kpis [⟨some "SINR_Avg", some "S", some 10⟩]).evidence
            (summarize_kpis [⟨some "SINR_Avg", some "S", some 10⟩]).anomalies ∨
       (∃ al, (none : Option AlarmSummary) = some al ∧ 0 < al.total_count ∧
         ("Investigate microwave/fiber backhaul modulation drops and high jitter."
            = "Review active CRITICAL/MAJOR alarms in ENM for impacted MOs."
          ∨ "Investigate microwave/fiber backhaul modulation drops and high jitter."
            = "Verify whether alarms coincide with KPI degradation periods.")) ∨
       (∃ bsm, (some (⟨1, 0.6, [], [], [], 0, 0⟩ : BackhaulSummary)) = some bsm ∧
          (0.5 : ℚ) < bsm.impairment_score ∧
         ("Investigate microwave/fiber backhaul modulation drops and high jitter."
            = "Investigate microwave/fiber backhaul modulation drops and high jitter."
          ∨ "Investigate microwave/fiber backhaul modulation drops and high jitter."
            = "Correlate backhaul RSSI and error counters with BLER and ERAB failures.")) ∨
       (∃ ats rate, (none : Option AttachSummary) = some ats ∧
         ats.overall_attach_success_rate = some rate ∧ rate < 95 ∧
         ("Investigate microwave/fiber backhaul modulation drops and high jitter."
             = "Investigate attach failures; overall attach success rate is "
             ++ fmt1 rate ++ "%." ∨
          (ats.dominant_failure_category = some "APN_QCI" ∧
           "Investigate microwave/fiber backhaul modulation drops and high jitter."
             = "Check APN, QCI, and bearer configuration for impacted IMSIs and APNs.") ∨
          (ats.dominant_failure_category = some "TAC" ∧
           "Investigate microwave/fiber backhaul modulation drops and high jitter."
             = "Verify TAC assignment and mobility configuration for affected cells.") ∨
          (ats.dominant_failure_category = some "RF" ∧
           "Investigate microwave/fiber backhaul modulation drops and high jitter."
             = "Check RF coverage, SINR, and interference around sites with high attach failures.") ∨
          (ats.dominant_failure_category = some "Congestion" ∧
           "Investigate microwave/fiber backhaul modulation drops and high jitter."
             = "Correlate attach failures with congestion indicators (PRB utilization, throughput)."))))) := by
  have h := analyze_rca_recommendations
    (fun _ _ _ => ("Normal Operation", "low")) (fun _ _ _ => [])
    [⟨some "SINR_Avg", some "S", some 10⟩] none
    (some ⟨1, 0.6, [], [], [], 0, 0⟩) none (by simp)
  exact ⟨h.1, h.2.1, h.2.2
    "Investigate microwave/fiber backhaul modulation drops and high jitter."⟩

/-- Counterexample for C8 as stated: a backhaul summary is present
(impairment 0.2) yet the returned recommendation list is empty — the
backhaul-correlation strings are appended only when the impairment
trigger fires, not for every present summary. -/
theorem analyze_rca_recommendations_cx :
    (analyze_rca (fun _ _ _ => ("Normal Operation", "low")) (fun _ _ _ => [])
      [⟨some "SINR_Avg", some "S", some 10⟩] none
      (some ⟨1, 0.2, [], [], [], 0, 0⟩) none).recommendations = [] ∧
    "Investigate microwave/fiber backhaul modulation drops and high jitter."
      ∉ (analyze_rca (fun _ _ _ => ("Normal Operation", "low"))
        (fun _ _ _ => []) [⟨some "SINR_Avg", some "S", some 10⟩] none
        (some ⟨1, 0.2, [], [], [], 0, 0⟩) none).recommendations := by
  have hb : backhaulRecs (some ⟨1, 0.2, [], [], [], 0, 0⟩) = [] := by
    unfold backhaulRecs
    dsimp only
    rw [if_neg (by norm_num)]
  have h : (analyze_rca (fun _ _ _ => ("Normal Operation", "low"))
      (fun _ _ _ => []) [⟨some "SINR_Avg", some "S", some 10⟩] none
      (some ⟨1, 0.2, [], [], [], 0, 0⟩) none).recommendations = [] := by
    unfold analyze_rca
    rw [if_neg (by simp)]
    dsimp only
    unfold extra_recommendations
    rw [hb]
    rfl
  refine ⟨h, ?_⟩
  rw [h]
  simp

/-! ## Timestamp normalization (`_parse_timestamp` in
`engine/alarm_analyzer.py`)

Wall-clock reads (`datetime.utcnow()`) enter the model as an explicit
`now` argument.  `strptime` is modelled by combinators that read a
maximal digit run and check its length and value; this is equivalent to
the backtracking field regexes because every following format token
starts with a non-digit. -/

/-- A `datetime.datetime` value (naive, as used by the analyzer). -/
structure PyDateTime where
  year : Nat
  month : Nat
  day : Nat
  hour : Nat
  minute : Nat
  second : Nat
  micro : Nat
  deriving DecidableEq, Repr

/-- Gregorian leap-year rule. -/
def isLeapYear (y : Nat) : Bool :=
  (y % 4 == 0 && y % 100 != 0) || y % 400 == 0

/-- Days in a month. -/
def daysInMonth (y m : Nat) : Nat :=
  if m = 2 then (if isLeapYear y then 29 else 28)
  else if m = 4 ∨ m = 6 ∨ m = 9 ∨ m = 11 then 30
  else 31

/-- The field ranges `datetime.datetime` accepts (year 1..9999). -/
def validDT (dt : PyDateTime) : Bool :=
  decide (1 ≤ dt.year) && decide (dt.year ≤ 9999) &&
  decide (1 ≤ dt.month) && decide (dt.month ≤ 12) &&
  decide (1 ≤ dt.day) && decide (dt.day ≤ daysInMonth dt.year dt.month) &&
  decide (dt.hour ≤ 23) && decide (dt.minute ≤ 59) &&
  decide (dt.second ≤ 59) && decide (dt.micro ≤ 999999)

/-- Decimal digit character of `n % ...` (callers pass values < 10). -/
def digCh : Nat → Char
  | 0 => '0' | 1 => '1' | 2 => '2' | 3 => '3' | 4 => '4'
  | 5 => '5' | 6 => '6' | 7 => '7' | 8 => '8' | 9 => '9'
  | _ => '0'

/-- Numeric value of a digit character. -/
def digitVal (c : Char) : Nat := c.toNat - 48

/-- Two zero-padded decimal digits. -/
def pad2 (n : Nat) : List Char := [digCh (n / 10), digCh (n % 10)]

/-- Four zero-padded decimal digits. -/
def pad4 (n : Nat) : List Char :=
  [digCh (n / 1000), digCh (n / 100 % 10), digCh (n / 10 % 10), digCh (n % 10)]

/-- Six zero-padded decimal digits. -/
def pad6 (n : Nat) : List Char :=
  [digCh (n / 100000), digCh (n / 10000 % 10), digCh (n / 1000 % 10),
   digCh (n / 100 % 10), digCh (n / 10 % 10), digCh (n % 10)]

/-- `datetime.isoformat()` as a char list: `YYYY-MM-DDTHH:MM:SS` plus a
6-digit fraction exactly when the microsecond field is nonzero. -/
def isoChars (dt : PyDateTime) : List Char :=
  pad4 dt.year ++ ('-' :: (pad2 dt.month ++ ('-' :: (pad2 dt.day ++
  ('T' :: (pad2 dt.hour ++ (':' :: (pad2 dt.minute ++ (':' :: (pad2 dt.second ++
  (if dt.micro = 0 then [] else '.' :: pad6 dt.micro)))))))))))

/-- `datetime.isoformat()`. -/
def isoformat (dt : PyDateTime) : String := String.mk (isoChars dt)

/-- Read one expected character. -/
def parseCh (c : Char) : List Char → Option (List Char)
  | a :: rest => if a = c then some rest else none
  | _ => none

/-- Read exactly two digit characters. -/
def parse2c : List Char → Option (Nat × List Char)
  | a :: b :: rest =>
    if a.isDigit && b.isDigit then
      some (digitVal a * 10 + digitVal b, rest)
    else none
  | _ => none

/-- Read exactly four digit characters. -/
def parse4c : List Char → Option (Nat × List Char)
  | a :: b :: c :: d :: rest =>
    if a.isDigit && b.isDigit && c.isDigit && d.isDigit then
      some (digitVal a * 1000 + digitVal b * 100 + digitVal c * 10
        + digitVal d, rest)
    else none
  | _ => none

/-- Read exactly six digit characters ending the input. -/
def parse6end : List Char → Option Nat
  | [a, b, c, d, e, f] =>
    if a.isDigit && b.isDigit && c.isDigit && d.isDigit
        && e.isDigit && f.isDigit then
      some (digitVal a * 100000 + digitVal b * 10000 + digitVal c * 1000
        + digitVal d * 100 + digitVal e * 10 + digitVal f)
    else none
  | _ => none

/-- Optional `.ffffff` fraction ending the input. -/
def readFracEnd : List Char → Option Nat
  | [] => some 0
  | '.' :: rest => parse6end rest
  | _ => none

/-- Reader of the canonical `isoformat` layout; also models the subset of
`datetime.fromisoformat` exercised by the pipeline's own timestamps. -/
def readIso (l : List Char) : Option PyDateTime :=
  (parse4c l).bind fun yl =>
  (parseCh '-' yl.2).bind fun l1 =>
  (parse2c l1).bind fun ml =>
  (parseCh '-' ml.2).bind fun l2 =>
  (parse2c l2).bind fun dl =>
  (parseCh 'T' dl.2).bind fun l3 =>
  (parse2c l3).bind fun hl =>
  (parseCh ':' hl.2).bind fun l4 =>
  (parse2c l4).bind fun mil =>
  (parseCh ':' mil.2).bind fun l5 =>
  (parse2c l5).bind fun sl =>
  (readFracEnd sl.2).bind fun mic =>
  (fun dt => if validDT dt then some dt else none)
    (⟨yl.1, ml.1, dl.1, hl.1, mil.1, sl.1, mic⟩ : PyDateTime)

/-- Value of a digit run, most significant first. -/
def natOfDigits (ds : List Char) : Nat :=
  ds.foldl (fun acc c => acc * 10 + digitVal c) 0

/-- `strptime` numeric field: maximal digit run of length in
`[1, maxLen]` whose value lies in `[lo, hi]`. -/
def parseField (maxLen lo hi : Nat) (l : List Char) :
    Option (Nat × List Char) :=
  let p := l.span Char.isDigit
  if p.1 ≠ [] ∧ p.1.length ≤ maxLen ∧ lo ≤ natOfDigits p.1
      ∧ natOfDigits p.1 ≤ hi then
    some (natOfDigits p.1, p.2)
  else none

/-- `%Y`: exactly four digits. -/
def parseYear (l : List Char) : Option (Nat × List Char) :=
  let p := l.span Char.isDigit
  if p.1.length = 4 then some (natOfDigits p.1, p.2) else none

/-- `%f`: one to six digits, scaled to microseconds. -/
def parseFrac (l : List Char) : Option (Nat × List Char) :=
  let p := l.span Char.isDigit
  if p.1 ≠ [] ∧ p.1.length ≤ 6 then
    some (natOfDigits p.1 * 10 ^ (6 - p.1.length), p.2)
  else none

/-- Whitespace in a `strptime` format: one or more whitespace chars. -/
def parseWsRun : List Char → Option (List Char)
  | a :: rest =>
    if a.isWhitespace then some (rest.dropWhile Char.isWhitespace) else none
  | [] => none

/-- Time separator of a format: the literal `T` or a whitespace run. -/
inductive TimeSep where
  | tee : TimeSep
  | ws : TimeSep
  deriving DecidableEq, Repr

/-- `datetime.datetime(...)` construction: `None` (a raised `ValueError`)
outside the valid calendar ranges. -/
def mkDatetime (y mo d h mi s mic : Nat) : Option PyDateTime :=
  let dt : PyDateTime := ⟨y, mo, d, h, mi, s, mic⟩
  if validDT dt then some dt else none

/-- `datetime.strptime` against one of the analyzer's four formats,
described by its date separator, time separator, and whether a fraction
is present. -/
def strptimeFmt (dateSep : Char) (tsep : TimeSep) (frac : Bool)
    (l : List Char) : Option PyDateTime :=
  (parseYear l).bind fun yl =>
  (parseCh dateSep yl.2).bind fun l1 =>
  (parseField 2 1 12 l1).bind fun ml =>
  (parseCh dateSep ml.2).bind fun l2 =>
  (parseField 2 1 31 l2).bind fun dl =>
  (match tsep with
   | TimeSep.tee => parseCh 'T' dl.2
   | TimeSep.ws => parseWsRun dl.2).bind fun l3 =>
  (parseField 2 0 23 l3).bind fun hl =>
  (parseCh ':' hl.2).bind fun l4 =>
  (parseField 2 0 59 l4).bind fun mil =>
  (parseCh ':' mil.2).bind fun l5 =>
  (parseField 2 0 59 l5).bind fun sl =>
  (if frac then (parseCh '.' sl.2).bind parseFrac
   else if sl.2 = [] then some (0, ([] : List Char)) else none).bind
    fun micl =>
  if micl.2 = [] then mkDatetime yl.1 ml.1 dl.1 hl.1 mil.1 sl.1 micl.1
  else none

/-- The format cascade of `_parse_timestamp`, in source order. -/
def strptimeAll (l : List Char) : Option PyDateTime :=
  match strptimeFmt '-' TimeSep.tee false l with
  | some dt => some dt
  | none =>
    match strptimeFmt '-' TimeSep.tee true l with
    | some dt => some dt
    | none =>
      match strptimeFmt '-' TimeSep.ws false l with
      | some dt => some dt
      | none => strptimeFmt '/' TimeSep.ws false l

/-- The preprocessing `_parse_timestamp` applies before `strptime`:
strip, then drop one trailing `Z`. -/
def preprocessTs (s : String) : List Char :=
  let v := pyStripChars s.toList
  if v.getLast? = some 'Z' then v.dropLast else v

/-- `_parse_timestamp`: empty input and parse failure both yield the
current instant (`now`). -/
def parse_timestamp (value : String) (now : PyDateTime) : String :=
  if value = "" then isoformat now
  else
    match strptimeAll (preprocessTs value) with
    | some dt => isoformat dt
    | none => isoformat now

theorem isDigit_digCh (n : Nat) : (digCh n).isDigit = true := by
  rcases n with _|_|_|_|_|_|_|_|_|_|m <;> rfl

theorem digitVal_digCh {n : Nat} (h : n < 10) : digitVal (digCh n) = n := by
  interval_cases n <;> rfl

theorem parseCh_cons (c : Char) (rest : List Char) :
    parseCh c (c :: rest) = some rest := by
  simp [parseCh]

theorem parse2c_pad2 {n : Nat} (h : n < 100) (rest : List Char) :
    parse2c (pad2 n ++ rest) = some (n, rest) := by
  have h1 : n / 10 < 10 := by omega
  have h2 : n % 10 < 10 := by omega
  simp [pad2, parse2c, isDigit_digCh, digitVal_digCh h1, digitVal_digCh h2]
  omega

theorem parse4c_pad4 {n : Nat} (h : n < 10000) (rest : List Char) :
    parse4c (pad4 n ++ rest) = some (n, rest) := by
  have h1 : n / 1000 < 10 := by omega
  have h2 : n / 100 % 10 < 10 := by omega
  have h3 : n / 10 % 10 < 10 := by omega
  have h4 : n % 10 < 10 := by omega
  simp [pad4, parse4c, isDigit_digCh, digitVal_digCh h1, digitVal_digCh h2,
    digitVal_digCh h3, digitVal_digCh h4]
  omega

theorem parse6end_pad6 {n : Nat} (h : n < 1000000) :
    parse6end (pad6 n) = some n := by
  have h1 : n / 100000 < 10 := by omega
  have h2 : n / 10000 % 10 < 10 := by omega
  have h3 : n / 1000 % 10 < 10 := by omega
  have h4 : n / 100 % 10 < 10 := by omega
  have h5 : n / 10 % 10 < 10 := by omega
  have h6 : n % 10 < 10 := by omega
  simp [pad6, parse6end, isDigit_digCh, digitVal_digCh h1, digitVal_digCh h2,
    digitVal_digCh h3, digitVal_digCh h4, digitVal_digCh h5,
    digitVal_digCh h6]
  omega

theorem daysInMonth_le_31 (y m : Nat) : daysInMonth y m ≤ 31 := by
  unfold daysInMonth
  split_ifs <;> omega

theorem readIso_isoChars {dt : PyDateTime} (h : validDT dt = true) :
    readIso (isoChars dt) = some dt := by
  have hsplit := h
  simp only [validDT, Bool.and_eq_true, decide_eq_true_eq] at hsplit
  have hdm := daysInMonth_le_31 dt.year dt.month
  have hy : dt.year < 10000 := by omega
  have hmo : dt.month < 100 := by omega
  have hd : dt.day < 100 := by omega
  have hh : dt.hour < 100 := by omega
  have hmi : dt.minute < 100 := by omega
  have hs : dt.second < 100 := by omega
  have hmc : dt.micro < 1000000 := by omega
  unfold isoChars readIso
  rw [parse4c_pad4 hy]
  simp only [Option.some_bind]
  rw [parseCh_cons]
  simp only [Option.some_bind]
  rw [parse2c_pad2 hmo]
  simp only [Option.some_bind]
  rw [parseCh_cons]
  simp only [Option.some_bind]
  rw [parse2c_pad2 hd]
  simp only [Option.some_bind]
  rw [parseCh_cons]
  simp only [Option.some_bind]
  rw [parse2c_pad2 hh]
  simp only [Option.some_bind]
  rw [parseCh_cons]
  simp only [Option.some_bind]
  rw [parse2c_pad2 hmi]
  simp only [Option.some_bind]
  rw [parseCh_cons]
  simp only [Option.some_bind]
  rw [parse2c_pad2 hs]
  simp only [Option.some_bind]
  by_cases hm0 : dt.micro = 0
  · rw [if_pos hm0]
    show (readFracEnd []).bind _ = some dt
    rw [show readFracEnd [] = some 0 from rfl]
    simp only [Option.some_bind]
    have heta : (⟨dt.year, dt.month, dt.day, dt.hour, dt.minute, dt.second,
        0⟩ : PyDateTime) = dt := by
      rw [← hm0]
    rw [heta, if_pos h]
  · rw [if_neg hm0]
    show (readFracEnd ('.' :: pad6 dt.micro)).bind _ = some dt
    rw [show readFracEnd ('.' :: pad6 dt.micro) = parse6end (pad6 dt.micro)
      from rfl]
    rw [parse6end_pad6 hmc]
    simp only [Option.some_bind]
    rw [if_pos h]

theorem strptimeFmt_valid {ds : Char} {ts : TimeSep} {fr : Bool}
    {l : List Char} {dt : PyDateTime}
    (h : strptimeFmt ds ts fr l = some dt) : validDT dt = true := by
  unfold strptimeFmt at h
  simp only [Option.bind_eq_some] at h
  obtain ⟨yl, _, l1, _, ml, _, l2, _, dl, _, l3, _, hl, _, l4, _, mil, _,
    l5, _, sl, _, micl, _, hfin⟩ := h
  split_ifs at hfin
  unfold mkDatetime at hfin
  dsimp only at hfin
  split_ifs at hfin with hv
  cases hfin
  exact hv

theorem strptimeAll_valid {l : List Char} {dt : PyDateTime}
    (h : strptimeAll l = some dt) : validDT dt = true := by
  unfold strptimeAll at h
  rcases e1 : strptimeFmt '-' TimeSep.tee false l with _ | d1 <;>
    rw [e1] at h
  · rcases e2 : strptimeFmt '-' TimeSep.tee true l with _ | d2 <;>
      rw [e2] at h
    · rcases e3 : strptimeFmt '-' TimeSep.ws false l with _ | d3 <;>
        rw [e3] at h
      · exact strptimeFmt_valid h
      · cases h
        exact strptimeFmt_valid e3
    · cases h
      exact strptimeFmt_valid e2
  · cases h
    exact strptimeFmt_valid e1

/-- C6: for every timestamp string in one of the four supported strptime
layouts (after the strip/trailing-Z preprocessing), `_parse_timestamp`
returns the ISO-8601 rendering of the parsed instant, and reading that
rendering back yields the same instant (to full precision, hence to
second precision); for every other input it returns the ISO-8601
rendering of the current instant — so the result is always a valid
ISO-8601 string and no input raises. -/
theorem parse_timestamp_spec (s : String) (now : PyDateTime)
    (hnow : validDT now = true) :
    (∀ dt, strptimeAll (preprocessTs s) = some dt →
      parse_timestamp s now = isoformat dt ∧
      readIso (isoformat dt).toList = some dt) ∧
    (∃ dt, readIso (parse_timestamp s now).toList = some dt ∧
      validDT dt = true) := by
  constructor
  · intro dt hdt
    have hvalid := strptimeAll_valid hdt
    have hne : s ≠ "" := by
      intro he
      subst he
      rw [show preprocessTs "" = [] from rfl] at hdt
      rw [show strptimeAll [] = none from rfl] at hdt
      cases hdt
    constructor
    · unfold parse_timestamp
      rw [if_neg hne, hdt]
    · show readIso (isoChars dt) = some dt
      exact readIso_isoChars hvalid
  · by_cases hne : s = ""
    · subst hne
      refine ⟨now, ?_, hnow⟩
      unfold parse_timestamp
      rw [if_pos rfl]
      exact readIso_isoChars hnow
    · rcases hdt : strptimeAll (preprocessTs s) with _ | dt
      · refine ⟨now, ?_, hnow⟩
        unfold parse_timestamp
        rw [if_neg hne, hdt]
        exact readIso_isoChars hnow
      · refine ⟨dt, ?_, strptimeAll_valid hdt⟩
        unfold parse_timestamp
        rw [if_neg hne, hdt]
        exact readIso_isoChars (strptimeAll_valid hdt)

/-- Witness for C6 at the slash-date, space-separated layout. -/
theorem parse_timestamp_spec_witness :
    parse_timestamp "2025/01/01 12:00:00" ⟨2000, 1, 1, 0, 0, 0, 0⟩ =
      isoformat ⟨2025, 1, 1, 12, 0, 0, 0⟩ ∧
    readIso (isoformat (⟨2025, 1, 1, 12, 0, 0, 0⟩ : PyDateTime)).toList =
      some ⟨2025, 1, 1, 12, 0, 0, 0⟩ :=
  (parse_timestamp_spec "2025/01/01 12:00:00" ⟨2000, 1, 1, 0, 0, 0, 0⟩
    (by decide)).1 ⟨2025, 1, 1, 12, 0, 0, 0⟩ (by decide)

/-! ## Alarm summarization (`summarize_alarms` in
`engine/alarm_analyzer.py`) -/

/-- The fixed ordered severity enumeration `SEVERITY_ORDER`. -/
def SEVERITY_ORDER : List String :=
  ["CRITICAL", "MAJOR", "MINOR", "WARNING", "INDETERMINATE", "CLEARED",
   "INFO"]

/-- `d[k] = d.get(k, 0) + 1` on a counter dict kept as an association
list in insertion order. -/
def bumpCount (m : List (String × Nat)) (k : String) :
    List (String × Nat) :=
  match m with
  | [] => [(k, 1)]
  | (k', v) :: t =>
    if k' = k then (k', v + 1) :: t else (k', v) :: bumpCount t k

/-- Insertion step of sorting counter entries by key
(`sorted(timeline.items(), key=lambda x: x[0])`). -/
def insByKey (p : String × Nat) :
    List (String × Nat) → List (String × Nat)
  | [] => [p]
  | q :: t => if p.1 ≤ q.1 then p :: q :: t else q :: insByKey p t

/-- Sort counter entries by key. -/
def sortByKey (l : List (String × Nat)) : List (String × Nat) :=
  l.foldr insByKey []

/-- Hour bucketing of one record's timestamp: `datetime.fromisoformat`
(the canonical layout the pipeline's own records carry), truncated to the
hour; an unparsable timestamp falls back to the raw string (the `except`
branch). -/
def hourBucket (ts : String) : String :=
  match readIso ts.toList with
  | some dt =>
    isoformat { dt with minute := 0, second := 0, micro := 0 }
  | none => ts

/-- `summarize_alarms`: totals, per-severity counts rendered in the fixed
severity order (absent severities omitted), per-MO counts, hour-bucketed
timeline sorted by bucket, and the first 200 raw records.  (On an empty
input the source returns a dict without a `sample` key; the model uses
the empty sample list.) -/
def summarize_alarms (records : List AlarmRecord) : AlarmSummary :=
  if records = [] then
    { total_count := 0, by_severity := [], by_mo := [], timeline := [],
      sample := [] }
  else
    let by_severity := records.foldl (fun m r =>
      bumpCount m (if r.severity = "" then "INDETERMINATE" else r.severity)) []
    let by_mo := records.foldl (fun m r =>
      bumpCount m (if r.mo = "" then "UNKNOWN" else r.mo)) []
    let timeline := records.foldl (fun m r =>
      bumpCount m (hourBucket r.timestamp)) []
    { total_count := records.length
      by_severity := SEVERITY_ORDER.filterMap (fun sev =>
        (by_severity.find? (fun kv => kv.1 == sev)).map
          (fun kv => (sev, kv.2)))
      by_mo := by_mo
      timeline := sortByKey timeline
      sample := records.take 200 }

/-- Sum of the counts of a counter dict. -/
def sumVals (m : List (String × Nat)) : Nat :=
  (m.map (fun kv => kv.2)).sum

/-- Count stored under one key (0 when absent). -/
def countVal (m : List (String × Nat)) (k : String) : Nat :=
  ((m.find? (fun kv => kv.1 == k)).map (fun kv => kv.2)).getD 0

theorem sumVals_bumpCount (m : List (String × Nat)) (k : String) :
    sumVals (bumpCount m k) = sumVals m + 1 := by
  induction m with
  | nil => rfl
  | cons q t ih =>
    rcases q with ⟨k', v⟩
    unfold bumpCount
    split_ifs <;> simp [sumVals] at ih ⊢ <;> omega

theorem sumVals_foldl_bump (g : AlarmRecord → String)
    (records : List AlarmRecord) (acc : List (String × Nat)) :
    sumVals (records.foldl (fun m r => bumpCount m (g r)) acc) =
      sumVals acc + records.length := by
  induction records generalizing acc with
  | nil => simp
  | cons r t ih =>
    rw [List.foldl_cons, ih, sumVals_bumpCount]
    simp only [List.length_cons]
    omega

theorem sumVals_insByKey (p : String × Nat) (l : List (String × Nat)) :
    sumVals (insByKey p l) = p.2 + sumVals l := by
  induction l with
  | nil => simp [insByKey, sumVals]
  | cons q t ih =>
    unfold insByKey
    split_ifs <;> simp [sumVals] at ih ⊢ <;> omega

theorem sumVals_sortByKey (l : List (String × Nat)) :
    sumVals (sortByKey l) = sumVals l := by
  induction l with
  | nil => rfl
  | cons p t ih =>
    show sumVals (insByKey p (sortByKey t)) = _
    rw [sumVals_insByKey, ih]
    simp [sumVals]

theorem countVal_nil (j : String) : countVal [] j = 0 := rfl

theorem countVal_cons (k' : String) (v : Nat) (t : List (String × Nat))
    (j : String) :
    countVal ((k', v) :: t) j = if k' = j then v else countVal t j := by
  unfold countVal
  by_cases h : k' = j
  · have hb : (k' == j) = true := by simpa using h
    simp [List.find?, hb, h]
  · have hb : (k' == j) = false := by simpa using h
    simp [List.find?, hb, h]

theorem countVal_bumpCount (m : List (String × Nat)) (k j : String) :
    countVal (bumpCount m k) j =
      countVal m j + (if k = j then 1 else 0) := by
  induction m with
  | nil =>
    show countVal [(k, 1)] j = countVal [] j + _
    rw [countVal_cons, countVal_nil]
    by_cases hkj : k = j <;> simp [hkj]
  | cons q t ih =>
    rcases q with ⟨k', v⟩
    unfold bumpCount
    by_cases hk : k' = k
    · rw [if_pos hk, countVal_cons, countVal_cons]
      by_cases hkj : k' = j
      · simp [hkj, hk.symm.trans hkj]
      · simp [hkj, show ¬ k = j from fun h => hkj (hk.trans h)]
    · rw [if_neg hk, countVal_cons, countVal_cons]
      by_cases hkj : k' = j
      · have hknj : ¬ k = j := fun h => hk (hkj.trans h.symm)
        simp [hkj, hknj]
      · simp [hkj, ih]

/-- Sum of the counts a counter dict stores under the keys of `K`. -/
def sumOver (K : List String) (m : List (String × Nat)) : Nat :=
  (K.map (fun k => countVal m k)).sum

theorem sumOver_bumpCount {K : List String} (hK : K.Nodup)
    (m : List (String × Nat)) (k : String) :
    sumOver K (bumpCount m k) =
      sumOver K m + (if k ∈ K then 1 else 0) := by
  induction K with
  | nil => simp [sumOver]
  | cons a t ih =>
    rcases List.nodup_cons.mp hK with ⟨hna, hnt⟩
    unfold sumOver at ih ⊢
    simp only [List.map_cons, List.sum_cons]
    rw [countVal_bumpCount, ih hnt]
    simp only [List.mem_cons]
    by_cases hka : k = a
    · have hkt : k ∉ t := by
        intro hmem
        exact hna (hka ▸ hmem)
      rw [if_pos hka, if_neg hkt, if_pos (Or.inl hka)]
      omega
    · by_cases hkt : k ∈ t
      · rw [if_neg hka, if_pos hkt, if_pos (Or.inr hkt)]
        omega
      · rw [if_neg hka, if_neg hkt, if_neg (by simp [hka, hkt])]
        omega

theorem sumOver_foldl_bump {K : List String} (hK : K.Nodup)
    (g : AlarmRecord → String) (records : List AlarmRecord)
    (acc : List (String × Nat)) :
    sumOver K (records.foldl (fun m r => bumpCount m (g r)) acc) =
      sumOver K acc +
        (records.filter (fun r => decide (g r ∈ K))).length := by
  induction records generalizing acc with
  | nil => simp
  | cons r t ih =>
    rw [List.foldl_cons, ih, sumOver_bumpCount hK]
    by_cases hgr : g r ∈ K <;> simp [List.filter_cons, hgr] <;> omega

theorem sumVals_cons (p : String × Nat) (l : List (String × Nat)) :
    sumVals (p :: l) = p.2 + sumVals l := by
  simp [sumVals]

theorem sumVals_filterMap_eq_sumOver (K : List String)
    (m : List (String × Nat)) :
    sumVals (K.filterMap (fun sev =>
      (m.find? (fun kv => kv.1 == sev)).map (fun kv => (sev, kv.2)))) =
      sumOver K m := by
  induction K with
  | nil => rfl
  | cons a t ih =>
    unfold sumOver at ih ⊢
    simp only [List.map_cons, List.sum_cons]
    rw [List.filterMap_cons]
    rcases hf : m.find? (fun kv => kv.1 == a) with _ | kv
    · rw [hf, Option.map_none']
      dsimp only
      rw [ih]
      have hc : countVal m a = 0 := by
        unfold countVal
        rw [hf]
        rfl
      rw [hc]
      omega
    · rw [hf, Option.map_some']
      dsimp only
      rw [sumVals_cons, ih]
      have hc : countVal m a = kv.2 := by
        unfold countVal
        rw [hf]
        rfl
      rw [hc]

/-- C10 (amended): `summarize_alarms` returns `total_count` equal to the
number of input records; the per-MO counts and the hourly-timeline counts
each sum to `total_count`; the sample is the first 200 records; but the
returned per-severity map keeps only the canonical severities of
`SEVERITY_ORDER`, so its counts sum to the number of records whose
severity (after the empty-string default) is canonical — records with a
non-canonical severity are dropped from that one grouping. -/
theorem summarize_alarms_sums (records : List AlarmRecord) :
    (summarize_alarms records).total_count = records.length ∧
    sumVals (summarize_alarms records).by_mo = records.length ∧
    sumVals (summarize_alarms records).timeline = records.length ∧
    sumVals (summarize_alarms records).by_severity =
      (records.filter (fun r => decide
        ((if r.severity = "" then "INDETERMINATE" else r.severity)
          ∈ SEVERITY_ORDER))).length ∧
    (summarize_alarms records).sample = records.take 200 := by
  by_cases hrec : records = []
  · subst hrec
    refine ⟨rfl, rfl, rfl, rfl, rfl⟩
  · have hord : SEVERITY_ORDER.Nodup := by decide
    unfold summarize_alarms
    rw [if_neg hrec]
    refine ⟨rfl, ?_, ?_, ?_, rfl⟩
    · rw [sumVals_foldl_bump]
      simp [sumVals]
    · rw [sumVals_sortByKey, sumVals_foldl_bump]
      simp [sumVals]
    · rw [sumVals_filterMap_eq_sumOver, sumOver_foldl_bump hord]
      simp [sumOver, SEVERITY_ORDER, countVal_nil]

/-- Counterexample for C10 as stated: one record with the non-canonical
severity "BOGUS" gives `total_count = 1`, but the returned per-severity
map is empty, so its counts sum to 0, not to `total_count`. -/
theorem summarize_alarms_sums_cx :
    (summarize_alarms [⟨"x", "BOGUS", "t", "m", "", ""⟩]).total_count = 1 ∧
    (summarize_alarms [⟨"x", "BOGUS", "t", "m", "", ""⟩]).by_severity = [] := by
  constructor
  · decide
  · decide

end RanCopilot
